import Mathlib

/-!
Verification development for the code-analyzer complexity and issue-detection
engine. The syntax-tree interface (node type tag, text span, named-field
lookup, ordered children, positions) is embedded as a rose tree; each
calculator, detector and parser routine is translated into an executable
Lean function, and the specified properties are stated and settled against
those definitions.
-/

namespace CodeAnalyzer

/-- Position and span data exposed by a syntax node: type tag, source text of
the node span, whether the node is a named grammar node, start/end rows
(0-based) and start/end byte indices into the source. -/
structure NodeInfo where
  type : String
  text : String
  named : Bool
  srow : Nat
  erow : Nat
  sidx : Nat
  eidx : Nat
deriving DecidableEq, Repr

/-- A syntax-tree node: its info plus the ordered child list. A child tagged
with `some f` is additionally reachable through field lookup under name `f`
(tree-sitter field children are ordinary children as well). -/
inductive SNode where
  | mk (info : NodeInfo) (kids : List (Option String × SNode))

def SNode.info : SNode → NodeInfo
  | .mk i _ => i

def SNode.kids : SNode → List (Option String × SNode)
  | .mk _ ks => ks

def SNode.type (n : SNode) : String := n.info.type

def SNode.text (n : SNode) : String := n.info.text

def SNode.srow (n : SNode) : Nat := n.info.srow

def SNode.children (n : SNode) : List SNode := n.kids.map (·.2)

/-- Field lookup `childForFieldName`: first child tagged with the given name. -/
def SNode.childForField (n : SNode) (name : String) : Option SNode :=
  (n.kids.find? (fun k => k.1 == some name)).map (·.2)

mutual

/-- Preorder enumeration of subtree nodes together with their ancestor chain
(nearest ancestor first); `anc` is the chain above the argument node. -/
def SNode.pairs (anc : List SNode) : SNode → List (List SNode × SNode)
  | .mk i ks => (anc, SNode.mk i ks) :: pairsKids (SNode.mk i ks :: anc) ks

def pairsKids (anc : List SNode) : List (Option String × SNode) → List (List SNode × SNode)
  | [] => []
  | (_, c) :: rest => SNode.pairs anc c ++ pairsKids anc rest

end

/-- Lowercase a string (ASCII, as used by `toLowerCase` on the identifier and
value texts in the detectors). -/
def jsToLower (s : String) : String := ⟨s.data.map Char.toLower⟩

def listStartsWith : List Char → List Char → Bool
  | [], _ => true
  | _ :: _, [] => false
  | p :: ps, c :: cs => p == c && listStartsWith ps cs

def strContainsAux : List Char → List Char → Bool
  | _, [] => true
  | [], _ :: _ => false
  | c :: cs, p :: ps =>
    (listStartsWith (p :: ps) (c :: cs)) || strContainsAux cs (p :: ps)

/-- JavaScript `String.prototype.includes`. -/
def jsIncludes (s pat : String) : Bool := strContainsAux s.data pat.data

/-- True when the string contains one of the given substrings. -/
def jsIncludesAny (s : String) (pats : List String) : Bool :=
  pats.any (fun p => jsIncludes s p)

def splitLinesAux : List Char → List Char → List String
  | [], acc => [⟨acc.reverse⟩]
  | c :: cs, acc =>
    if c == '\n' then ⟨acc.reverse⟩ :: splitLinesAux cs []
    else splitLinesAux cs (c :: acc)

/-- JavaScript `code.split(newline)`. -/
def splitLines (s : String) : List String := splitLinesAux s.data []

/-- JavaScript `String.prototype.trim`. -/
def jsTrim (s : String) : String :=
  ⟨((s.data.dropWhile Char.isWhitespace).reverse.dropWhile Char.isWhitespace).reverse⟩

/-- JavaScript `String.prototype.toUpperCase` (ASCII). -/
def jsToUpper (s : String) : String := ⟨s.data.map Char.toUpper⟩

/-- JavaScript `String.prototype.startsWith`. -/
def jsStartsWith (s pat : String) : Bool := listStartsWith pat.data s.data

/-- Join strings with a separator (`Array.prototype.join`). -/
def joinSep (sep : String) : List String → String
  | [] => ""
  | [s] => s
  | s :: rest => s ++ sep ++ joinSep sep rest

/-- JavaScript `lines[i]` on a string list: `none` when out of bounds. -/
def lineAt (lines : List String) (i : Nat) : Option String := lines.get? i

/-- The `getLineContent` helper shared by the detectors:
`lines[line - 1]?.trim() || empty`. -/
def getLineContent (code : String) (line : Nat) : String :=
  match lineAt (splitLines code) (line - 1) with
  | some l => jsTrim l
  | none => ""

/-- JavaScript `String.prototype.substring` on character indices. -/
def jsSubstring (s : String) (start stop : Nat) : String :=
  ⟨(s.data.drop start).take (stop - start)⟩

/-- Replace the first occurrence of `pat` in `s` by `rep`; an empty pattern
matches at index 0, as in JavaScript `String.prototype.replace` with a
string argument. -/
def replaceFirstAux (rep pat : List Char) : List Char → List Char
  | [] => if pat.isEmpty then rep else []
  | c :: cs =>
    if listStartsWith pat (c :: cs) then rep ++ (c :: cs).drop pat.length
    else c :: replaceFirstAux rep pat cs

def jsReplaceFirst (s pat rep : String) : String :=
  ⟨replaceFirstAux rep.data pat.data s.data⟩

/-- Global replacement of the 4-character pattern whitespace, `a`, `b`,
whitespace by `rep` (the shape of the regex used by the loose-equality fix). -/
def replaceWsOpAux (a b : Char) (rep : List Char) : List Char → List Char
  | w :: x :: y :: z :: cs =>
    if w.isWhitespace && x == a && y == b && z.isWhitespace then
      rep ++ replaceWsOpAux a b rep cs
    else
      w :: replaceWsOpAux a b rep (x :: y :: z :: cs)
  | cs => cs

def jsReplaceWsOp (s : String) (a b : Char) (rep : String) : String :=
  ⟨replaceWsOpAux a b rep.data s.data⟩

/-- Digit run to a natural number. -/
def digitsToNat (ds : List Char) : Nat :=
  ds.foldl (fun a c => a * 10 + (c.toNat - 48)) 0

/-- Exact decimal number `m / 10 ^ k`, the representation used for JavaScript
number values in this development (every number the engine manipulates is a
decimal literal value, an integer count, or an average rounded to one decimal
place, all of which this type represents exactly). -/
structure JSNum where
  m : Int
  k : Nat
deriving DecidableEq, Repr

def JSNum.ofNat (n : Nat) : JSNum := ⟨(n : Int), 0⟩

def JSNum.ofInt (n : Int) : JSNum := ⟨n, 0⟩

/-- Numeric equality of two scaled decimals (cross multiplication). -/
def JSNum.numEq (a b : JSNum) : Bool := a.m * (10 : Int) ^ b.k == b.m * (10 : Int) ^ a.k

def JSNum.numLt (a b : JSNum) : Bool :=
  decide (a.m * (10 : Int) ^ b.k < b.m * (10 : Int) ^ a.k)

def JSNum.numLe (a b : JSNum) : Bool :=
  decide (a.m * (10 : Int) ^ b.k ≤ b.m * (10 : Int) ^ a.k)

def JSNum.numGt (a b : JSNum) : Bool := JSNum.numLt b a

/-- Render an integral value the way JavaScript string interpolation does;
only integral metric values are ever interpolated into issue messages. -/
def JSNum.toStr (a : JSNum) : String :=
  if a.k == 0 then toString a.m else toString a.m ++ "/10^" ++ toString a.k

/-- Parse an optional exponent suffix: returns the signed exponent value. -/
def parseExponent : List Char → Int
  | c :: rest =>
    if c == 'e' || c == 'E' then
      match rest with
      | d :: ds2 =>
        if d == '-' then
          let eds := ds2.takeWhile (fun x : Char => x.isDigit)
          if eds.isEmpty then 0 else -(digitsToNat eds : Int)
        else if d == '+' then
          let eds := ds2.takeWhile (fun x : Char => x.isDigit)
          if eds.isEmpty then 0 else (digitsToNat eds : Int)
        else
          let eds := (d :: ds2).takeWhile (fun x : Char => x.isDigit)
          if eds.isEmpty then 0 else (digitsToNat eds : Int)
      | [] => 0
    else 0
  | [] => 0

/-- JavaScript `parseFloat` restricted to the decimal grammar: optional sign,
integer digits, optional fraction, optional exponent; trailing garbage is
ignored; `none` models `NaN` (no significand digits). The value is exact. -/
def jsParseNum (s : String) : Option JSNum :=
  let cs0 := s.data.dropWhile (fun c : Char => c.isWhitespace)
  let neg : Bool := match cs0 with
    | c :: _ => c == '-'
    | [] => false
  let cs : List Char := match cs0 with
    | c :: rest => if c == '-' || c == '+' then rest else c :: rest
    | [] => []
  let ip := cs.takeWhile (fun x : Char => x.isDigit)
  let cs2 := cs.dropWhile (fun x : Char => x.isDigit)
  let fp : List Char := match cs2 with
    | c :: rest => if c == '.' then rest.takeWhile (fun x : Char => x.isDigit) else []
    | [] => []
  let cs3 : List Char := match cs2 with
    | c :: rest => if c == '.' then rest.dropWhile (fun x : Char => x.isDigit) else c :: rest
    | [] => []
  if ip.isEmpty && fp.isEmpty then none
  else
    let m0 : Int := (digitsToNat ip * 10 ^ fp.length + digitsToNat fp : Nat)
    let m1 : Int := if neg then -m0 else m0
    let e := parseExponent cs3
    match e with
    | Int.ofNat d => some ⟨m1 * (10 : Int) ^ d, fp.length⟩
    | Int.negSucc d => some ⟨m1, fp.length + (d + 1)⟩

/-- JavaScript `Math.round (p / q)` for integer `p` and positive integer `q`:
round half toward positive infinity, computed as `floor ((2p + q) / 2q)`. -/
def jsRoundDiv (p : Int) (q : Int) : Int := Int.fdiv (2 * p + q) (2 * q)

/-- JavaScript `Math.ceil (a / b)` on naturals. -/
def jsCeilNat (a b : Nat) : Nat := (a + b - 1) / b

/-- Issue kinds, the closed enum from `types.ts`. -/
inductive IssueType where
  | HIGH_COMPLEXITY
  | DEEP_NESTING
  | LONG_FUNCTION
  | TOO_MANY_PARAMETERS
  | MAGIC_NUMBER
  | POOR_NAMING
  | DUPLICATED_CODE
  | DEAD_CODE
  | CONSOLE_LOG
  | EMPTY_CATCH
  | TODO_COMMENT
  | COMMENTED_CODE
  | TYPE_COERCION
  | NESTED_LOOPS
  | DOM_IN_LOOP
  | STRING_CONCAT_IN_LOOP
  | REGEX_IN_LOOP
  | INEFFICIENT_ARRAY_OPS
  | EVAL_USAGE
  | INNERHTML_USAGE
  | HARDCODED_SECRET
  | SQL_INJECTION_RISK
  | POTENTIAL_BUG
  | MISSING_ERROR_HANDLING
  | EVENT_LISTENER_LEAK
  | INTERVAL_LEAK
  | TIMEOUT_LEAK
  | CLOSURE_LEAK
  | GLOBAL_LEAK
  | GOD_CLASS
  | FEATURE_ENVY
  | TIGHT_COUPLING
  | MISSING_ABSTRACTION
  | INCONSISTENT_NAMING
deriving DecidableEq, Repr

/-- Issue categories from `types.ts`. -/
inductive IssueCategory where
  | COMPLEXITY
  | CODE_SMELL
  | PERFORMANCE
  | SECURITY
  | MAINTAINABILITY
  | MEMORY_LEAK
  | ARCHITECTURE
deriving DecidableEq, Repr

/-- Issue severities, totally ordered low < medium < high < critical. -/
inductive Severity where
  | low
  | medium
  | high
  | critical
deriving DecidableEq, Repr

/-- The fix record produced by `FixGenerator` (its local `CodeFix` shape). -/
structure FGFix where
  issueType : IssueType
  description : String
  originalCode : String
  fixedCode : String
  automated : Bool
deriving DecidableEq, Repr

/-- A detected issue (`CodeIssue` in `types.ts`). -/
structure CodeIssue where
  type : IssueType
  category : IssueCategory
  severity : Severity
  line : Nat
  message : String
  suggestion : Option String
  codeSnippet : Option String
  fix : Option FGFix
deriving DecidableEq, Repr

/-- Per-function complexity metrics (`ComplexityMetrics` in `types.ts`). -/
structure ComplexityMetrics where
  cyclomaticComplexity : JSNum
  cognitiveComplexity : JSNum
  linesOfCode : JSNum
  effectiveLinesOfCode : JSNum
  nestingDepth : JSNum
  functionLength : JSNum
  parameterCount : JSNum
deriving DecidableEq, Repr

/-- Analyzed function record (`FunctionInfo`). -/
structure FunctionInfo where
  name : String
  startLine : Nat
  endLine : Nat
  metrics : ComplexityMetrics
  issues : List CodeIssue
deriving DecidableEq, Repr

/-- Analyzed class record (`ClassInfo`). -/
structure ClassInfo where
  name : String
  startLine : Nat
  endLine : Nat
  methods : List FunctionInfo
  metrics : ComplexityMetrics
deriving DecidableEq, Repr

/-- The per-file analysis result (`FileAnalysis`). The run-time clock read by
`new Date()` in the parsers is modelled as an explicit `analysisDate` input. -/
structure FileAnalysis where
  filePath : String
  language : String
  overallMetrics : ComplexityMetrics
  functions : List FunctionInfo
  classes : List ClassInfo
  totalIssues : Nat
  analysisDate : Nat
deriving DecidableEq, Repr

/-- The analyzer thresholds (`DEFAULT_CONFIG` in `types.ts`). -/
structure AnalyzerConfig where
  cyclomaticThreshold : Nat
  cognitiveThreshold : Nat
  maxNestingDepth : Nat
  maxFunctionLength : Nat
  maxParameters : Nat
deriving DecidableEq, Repr

def DEFAULT_CONFIG : AnalyzerConfig :=
  ⟨10, 15, 4, 50, 5⟩


/-- Decision node types per language (`CyclomaticComplexityCalculator.getDecisionNodes`).
For JavaScript and TypeScript the source adds the node type `logical_expression`
(commented as covering the and/or operators) and the node type `binary_expression`
(commented as covering the nullish-coalescing operator). -/
def cycDecisionNodes (lang : String) : List String :=
  let common := ["if_statement", "for_statement", "while_statement", "do_statement",
    "switch_case", "catch_clause", "ternary_expression", "conditional_expression"]
  let withJs := if lang == "javascript" || lang == "typescript" then
      common ++ ["logical_expression", "binary_expression"]
    else common
  if lang == "python" then
    withJs ++ ["boolean_operator", "elif_clause", "except_clause"]
  else withJs

/-- Cyclomatic complexity (`CyclomaticComplexityCalculator.calculate`): base 1
plus one for every node of the preorder traversal whose type is in the
decision set. The source contains an additional conditional on the operator
of logical-expression nodes whose both branches do nothing, so it has no
effect on the count and is not reproduced. -/
def cyclomaticCalculate (lang : String) (functionNode : SNode) : Nat :=
  1 + (functionNode.pairs []).countP
    (fun p => (cycDecisionNodes lang).contains p.2.type)

/-- Break-in-flow node types (`CognitiveComplexityCalculator.getBreakFlowNodes`). -/
def cogBreakFlowNodes (lang : String) : List String :=
  let common := ["if_statement", "for_statement", "while_statement", "do_statement",
    "switch_statement", "catch_clause", "ternary_expression", "conditional_expression"]
  if lang == "python" then common ++ ["except_clause", "with_statement"]
  else common

/-- The function name used by the calculators: text of the `name` field child,
`<anonymous>` when absent (`getFunctionName`). -/
def getFunctionNameOf (n : SNode) : String :=
  match n.childForField "name" with
  | some nm => nm.text
  | none => "<anonymous>"

/-- Callee text of a call node: text of the `function` field child (`getCallName`). -/
def getCallNameOf (n : SNode) : String :=
  match n.childForField "function" with
  | some f => f.text
  | none => ""

/-- Whether a node is a short-circuit logical operator node
(`CognitiveComplexityCalculator.isLogicalOperator`). -/
def isLogicalOperatorNode (n : SNode) : Bool :=
  (n.type == "logical_expression" || n.type == "boolean_operator") &&
    (match n.childForField "operator" with
     | some op => op.text == "&&" || op.text == "||" || op.text == "and" || op.text == "or"
     | none => false)

/-- Whether a call node textually calls the enclosing function
(`CognitiveComplexityCalculator.isRecursiveCall`). -/
def isRecursiveCallNode (fname : String) (n : SNode) : Bool :=
  n.type == "call_expression" && fname != "<anonymous>" && fname == getCallNameOf n

mutual

/-- One step of `CognitiveComplexityCalculator.calculate`. The source keeps
`complexity` and `nestingLevel` in two variables captured by the recursive
closure; `nestingLevel` is assigned on entering every node and read again at
each iteration of the child loop, so the value set deep inside an earlier
child subtree is what the next sibling receives. The translation returns the
pair (complexity contributed by the subtree, final value of the shared
`nestingLevel` variable). `parentType` is the type of the parent of the node,
used by the `isElseIf` test. -/
def cogVisit (bf : List String) (fname : String) (parentType : Option String)
    (parentNesting : Nat) : SNode → Nat × Nat
  | .mk i ks =>
    let n : SNode := SNode.mk i ks
    let isBreakFlow := bf.contains i.type
    let isEIf := i.type == "if_statement" && parentType == some "else_clause"
    let own : Nat :=
      if isBreakFlow then (1 + parentNesting) - (if isEIf then 1 + parentNesting else 0)
      else 0
    let nl0 := if isBreakFlow then parentNesting + 1 else parentNesting
    let extra : Nat := (if isLogicalOperatorNode n then 1 else 0) +
      (if isRecursiveCallNode fname n then 1 else 0)
    let r := cogVisitKids bf fname i.type nl0 ks
    (own + extra + r.1, r.2)

/-- Child loop of the cognitive traversal: each child is visited with the
current value of the shared `nestingLevel` variable, which the subtree of that child
then updates for the next sibling. -/
def cogVisitKids (bf : List String) (fname : String) (ptype : String) (nl : Nat) :
    List (Option String × SNode) → Nat × Nat
  | [] => (0, nl)
  | (_, c) :: rest =>
    let r1 := cogVisit bf fname (some ptype) nl c
    let r2 := cogVisitKids bf fname ptype r1.2 rest
    (r1.1 + r2.1, r2.2)

end

/-- Cognitive complexity (`CognitiveComplexityCalculator.calculate`). The
name used by the recursion penalty is the one of the function node itself;
`rootParentType` is the type of the parent of the node in the enclosing tree. -/
def cognitiveCalculate (lang : String) (rootParentType : Option String)
    (functionNode : SNode) : Nat :=
  (cogVisit (cogBreakFlowNodes lang) (getFunctionNameOf functionNode)
    rootParentType 0 functionNode).1

/-- Line counts of a code slice (`BaseParser.countLines`). -/
structure LineCount where
  total : Nat
  effective : Nat
deriving DecidableEq, Repr

def countLines (code : String) : LineCount :=
  let lines := splitLines code
  let effective := lines.countP (fun line =>
    let t := jsTrim line
    !t.data.isEmpty && !jsStartsWith t "//" && !jsStartsWith t "/*" &&
      !jsStartsWith t "*" && !jsStartsWith t "#")
  ⟨lines.length, effective⟩

/-- Function/method extraction (`BaseParser.extractFunctions`), keeping each
extracted node paired with its ancestor chain inside the walked tree. -/
def extractFunctionPairs (functionTypes : List String) (root : SNode) :
    List (List SNode × SNode) :=
  (root.pairs []).filter (fun p => functionTypes.contains p.2.type)

/-- Parameter count (`BaseParser.countParameters`): non-punctuation children
of the `parameters` field child. -/
def countParametersJS (n : SNode) : Nat :=
  match n.childForField "parameters" with
  | some params =>
    (params.children.filter (fun c => !(["(", ")", ","].contains c.type))).length
  | none => 0

/-- Maximum nesting depth of a subtree for a given block-type set
(`calculateMaxNesting` in the parsers): the depth of a node is the number of
block-typed nodes on its path from the walked root, itself included. -/
def calculateMaxNesting (blockTypes : List String) (node : SNode) : Nat :=
  ((node.pairs []).map (fun p =>
    ((p.2 :: p.1).filter (fun a => blockTypes.contains a.type)).length)).foldl max 0

def jsNestingBlockTypes : List String :=
  ["if_statement", "for_statement", "while_statement", "do_statement",
   "switch_statement", "try_statement", "block"]

def pyNestingBlockTypes : List String :=
  ["if_statement", "for_statement", "while_statement", "with_statement",
   "try_statement", "block"]

/-- Base metrics record (`BaseParser.createEmptyMetrics`). -/
def createEmptyMetrics : ComplexityMetrics :=
  ⟨JSNum.ofNat 1, JSNum.ofNat 0, JSNum.ofNat 0, JSNum.ofNat 0,
   JSNum.ofNat 0, JSNum.ofNat 0, JSNum.ofNat 0⟩

/-! The code-smell detector (`CodeSmellDetector`). Each detector receives the
function source slice, the ancestor chain of the walked root and the root
node; ancestor chains model the source walking `node.parent` links. -/

def acceptableNumbers : List Int :=
  [0, 1, -1, 2, 10, 100, 1000, 60, 24, 7, 200, 201, 204, 400, 401, 403, 404,
   500, 502, 503, 16, 32, 64, 128, 256, 512, 1024]

def acceptableHas : Option JSNum → Bool
  | some v => acceptableNumbers.any (fun a => v.numEq (JSNum.ofInt a))
  | none => false

def isTimeRelatedText (t : String) : Bool :=
  jsIncludesAny (jsToLower t) ["settimeout", "setinterval", "delay", "wait",
    "sleep", "millisecond", "second", "minute", "hour", "day"]

def isHTTPStatusNum : Option JSNum → Bool
  | some v => (JSNum.ofNat 100).numLe v && v.numLt (JSNum.ofNat 600)
  | none => false

def isPercentageCtx (ntext parentText : String) : Bool :=
  jsIncludesAny (jsToLower parentText) ["percent", "%", "ratio", "fraction"] ||
    (ntext == "100" && jsIncludes parentText "/")

/-- Parent text `n.parent?.text || empty`. -/
def parentTextOf : List SNode → String
  | p :: _ => p.text
  | [] => ""

/-- Grandparent text `n.parent?.parent?.text || empty`. -/
def grandTextOf : List SNode → String
  | _ :: g :: _ => g.text
  | _ => ""

/-- Whether the parent is a subscript expression (`isArrayIndex`). -/
def isArrayIndexAt : List SNode → Bool
  | p :: _ => p.type == "subscript_expression"
  | [] => false

def magicSnippetTypes : List String :=
  ["call_expression", "expression_statement", "variable_declarator",
   "assignment_expression", "new_expression"]

def capSnippet (s : String) : String :=
  if s.length > 80 then jsSubstring s 0 77 ++ "..." else s

/-- The snippet walk of `detectMagicNumbers`: climb ancestors looking for a
meaningful context node; stop at the tree top, a program node or a function
node keeping the literal text. -/
def magicSnippetWalk (ntext : String) : List SNode → String
  | [] => ntext
  | p :: rest =>
    if magicSnippetTypes.contains p.type then capSnippet (jsTrim p.text)
    else if rest.isEmpty || p.type == "program" || p.type == "function" then ntext
    else magicSnippetWalk ntext rest

def magicIssueAt (anc : List SNode) (n : SNode) : List CodeIssue :=
  if n.type == "number" then
    let value := jsParseNum n.text
    let line := n.srow + 1
    if !acceptableHas value && !isArrayIndexAt anc &&
        !isTimeRelatedText (parentTextOf anc) &&
        !(isHTTPStatusNum value && jsIncludes (grandTextOf anc) "status") &&
        !isPercentageCtx n.text (parentTextOf anc) then
      [{ type := .MAGIC_NUMBER, category := .CODE_SMELL, severity := .low,
         line := line,
         message := "Magic number \x27" ++ n.text ++
           "\x27 should be replaced with a named constant",
         suggestion := some ("const DESCRIPTIVE_NAME = " ++ n.text ++
           "; // Explain what this number means"),
         codeSnippet := some (magicSnippetWalk n.text anc), fix := none }]
    else []
  else []

def detectMagicNumbers (anc0 : List SNode) (node : SNode) : List CodeIssue :=
  (node.pairs anc0).flatMap (fun p => magicIssueAt p.1 p.2)

def badNames : List String := ["data", "temp", "tmp", "foo", "bar", "baz"]

def loopVariables : List String := ["i", "j", "k", "l", "m", "n"]

def commonAbbreviations : List String :=
  ["req", "res", "err", "msg", "url", "uri", "api", "id", "db", "ctx", "app",
   "fn", "cb", "acc", "cur", "prev", "next",
   "x", "y", "z", "dx", "dy", "dz",
   "str", "num", "arr", "obj", "val", "key", "idx", "len", "max", "min",
   "e", "ex",
   "cfg", "env", "opts", "args", "params"]

def isInLoopContextAt (anc : List SNode) : Bool :=
  anc.any (fun a => a.type == "for_statement" || a.type == "for_in_statement" ||
    a.type == "while_statement")

/-- Count of named children (`namedChildCount`). -/
def namedChildCount (n : SNode) : Nat :=
  (n.kids.filter (fun k => k.2.info.named)).length

def isCallbackParamAt (anc : List SNode) : Bool :=
  anc.any (fun a =>
    (a.type == "arrow_function" || a.type == "function_expression") &&
      (match a.childForField "parameters" with
       | some params => namedChildCount params ≤ 2
       | none => false))

def isCatchParamAt : List SNode → Bool
  | [] => false
  | p :: rest =>
    if p.type == "program" then false
    else if p.type == "catch_clause" then true
    else isCatchParamAt rest

def checkIdentifierIssue (code : String) (anc : List SNode) (n : SNode) :
    List CodeIssue :=
  if n.type == "identifier" then
    let name := n.text
    let line := n.srow + 1
    if loopVariables.contains name && isInLoopContextAt anc then []
    else if commonAbbreviations.contains (jsToLower name) then []
    else if isCallbackParamAt anc then []
    else if (name == "e" || name == "err" || name == "error") && isCatchParamAt anc then []
    else if (name.length == 1 && !loopVariables.contains name &&
        !commonAbbreviations.contains name) || badNames.contains (jsToLower name) then
      [{ type := .POOR_NAMING, category := .CODE_SMELL, severity := .low,
         line := line,
         message := "Poor variable name \x27" ++ name ++ "\x27 - use descriptive names",
         suggestion := some "Choose a name that describes what the variable represents",
         codeSnippet := some (getLineContent code line), fix := none }]
    else []
  else []

def poorNamingAt (code : String) (anc : List SNode) (n : SNode) : List CodeIssue :=
  (if n.type == "variable_declarator" then
    match n.childForField "name" with
    | some nm => checkIdentifierIssue code (n :: anc) nm
    | none => []
  else []) ++
  (if n.type == "formal_parameters" || n.type == "parameters" then
    (n.kids.filter (fun k => k.2.type == "identifier" ||
      k.2.type == "required_parameter")).flatMap
      (fun k => checkIdentifierIssue code (n :: anc) k.2)
  else [])

def detectPoorNaming (code : String) (anc0 : List SNode) (node : SNode) :
    List CodeIssue :=
  (node.pairs anc0).flatMap (fun p => poorNamingAt code p.1 p.2)

def usesLoggingFramework (code : String) : Bool :=
  jsIncludesAny code ["winston", "bunyan", "pino", "log4js", "loglevel",
    "logger", "Logger", "log.", "logging"]

def isTestOrDevFile (code : String) : Bool :=
  let header := jsToLower (joinSep "\n" ((splitLines code).take 50))
  jsIncludesAny header ["test", "spec", "debug", "development", "example", "demo"]

def consoleLogAt (lenient : Bool) (anc : List SNode) (n : SNode) : List CodeIssue :=
  if n.type == "call_expression" then
    match n.childForField "function" with
    | some fnNode =>
      if fnNode.type == "member_expression" then
        let objOk := match fnNode.childForField "object" with
          | some o => o.text == "console"
          | none => false
        let propOk := match fnNode.childForField "property" with
          | some pp => pp.text == "log"
          | none => false
        if objOk && propOk then
          if lenient then []
          else
            let line := n.srow + 1
            let snippet := match anc with
              | par :: _ =>
                if par.type == "expression_statement" then jsTrim par.text
                else jsTrim n.text
              | [] => jsTrim n.text
            [{ type := .CONSOLE_LOG, category := .CODE_SMELL, severity := .low,
               line := line,
               message := "console.log() statement found - remove before production",
               suggestion := some ("Use a proper logging library (winston, pino, etc.) " ++
                 "or console.error/warn/info for intentional logging"),
               codeSnippet := some snippet, fix := none }]
        else []
      else []
    | none => []
  else []

def detectConsoleLog (code : String) (anc0 : List SNode) (node : SNode) :
    List CodeIssue :=
  let lenient := usesLoggingFramework code || isTestOrDevFile code
  (node.pairs anc0).flatMap (fun p => consoleLogAt lenient p.1 p.2)

def isEmptyBlock (n : SNode) : Bool :=
  n.type == "statement_block" &&
    (n.children.filter (fun c => c.type != "\x7b" && c.type != "\x7d")).isEmpty

def hasExplanatoryComment (code : String) (body : SNode) : Bool :=
  let lines := splitLines code
  (List.range (body.info.erow + 1 - body.info.srow)).any (fun d =>
    let line := jsToLower ((lineAt lines (body.info.srow + d)).getD "")
    (jsIncludes line "//" || jsIncludes line "/*") &&
      jsIncludesAny line ["intentional", "ignore", "expected", "optional",
        "no-op", "noop", "safe to ignore"])

def emptyCatchAt (code : String) (n : SNode) : List CodeIssue :=
  if n.type == "catch_clause" then
    match n.childForField "body" with
    | some body =>
      if isEmptyBlock body && !hasExplanatoryComment code body then
        let line := n.srow + 1
        [{ type := .EMPTY_CATCH, category := .MAINTAINABILITY, severity := .medium,
           line := line,
           message := "Empty catch block - errors are being silently ignored",
           suggestion := some ("Handle the error appropriately, log it, or add a " ++
             "comment explaining why it\x27s intentionally ignored"),
           codeSnippet := some (getLineContent code line), fix := none }]
      else []
    | none => []
  else []

def detectEmptyCatch (code : String) (anc0 : List SNode) (node : SNode) :
    List CodeIssue :=
  (node.pairs anc0).flatMap (fun p => emptyCatchAt code p.2)

def detectTodoComments (code : String) : List CodeIssue :=
  (splitLines code).enum.flatMap (fun il =>
    let lineNum := il.1 + 1
    let trimmed := jsTrim il.2
    if jsIncludes trimmed "TODO" || jsIncludes trimmed "FIXME" ||
        jsIncludes trimmed "HACK" then
      let keyword := if jsIncludes trimmed "FIXME" then "FIXME"
        else if jsIncludes trimmed "HACK" then "HACK" else "TODO"
      [{ type := .TODO_COMMENT, category := .MAINTAINABILITY,
         severity := if keyword == "FIXME" then .medium else .low,
         line := lineNum,
         message := keyword ++ " comment found - track as technical debt",
         suggestion := some "Create a ticket to address this properly",
         codeSnippet := some trimmed, fix := none }]
    else [])

def isNullCheckNode (n : SNode) : Bool :=
  let leftText := match n.childForField "left" with
    | some l => some l.text
    | none => none
  let rightText := match n.childForField "right" with
    | some r => some r.text
    | none => none
  leftText == some "null" || rightText == some "null" ||
    leftText == some "undefined" || rightText == some "undefined"

def typeCoercionAt (code : String) (n : SNode) : List CodeIssue :=
  if n.type == "binary_expression" then
    match n.childForField "operator" with
    | some op =>
      if op.text == "==" || op.text == "!=" then
        if isNullCheckNode n then []
        else
          let line := n.srow + 1
          let replacement := if op.text == "==" then "===" else "!=="
          [{ type := .TYPE_COERCION, category := .MAINTAINABILITY,
             severity := .medium, line := line,
             message := "Using \x27" ++ op.text ++ "\x27 instead of \x27" ++
               replacement ++ "\x27 - can cause unexpected behavior",
             suggestion := some ("Use \x27" ++ replacement ++
               "\x27 for strict equality comparison (or use == null if checking " ++
               "for null/undefined)"),
             codeSnippet := some (getLineContent code line), fix := none }]
      else []
    | none => []
  else []

def detectTypeCoercion (code : String) (anc0 : List SNode) (node : SNode) :
    List CodeIssue :=
  (node.pairs anc0).flatMap (fun p => typeCoercionAt code p.2)

/-- An insertion-ordered map update: an existing key keeps its position and
takes the new value, as JavaScript `Map.prototype.set` does. -/
def mapUpsert {α : Type} (m : List (String × α)) (k : String) (v : α) :
    List (String × α) :=
  if m.any (fun e => e.1 == k) then
    m.map (fun e => if e.1 == k then (k, v) else e)
  else m ++ [(k, v)]

/-- Walk from a declarator toward the root to the declaration statement to
quote (`detectUnusedVariables` inner loop). -/
def findDeclarationNode (n : SNode) : List SNode → SNode
  | [] => n
  | p :: rest =>
    if p.type == "program" || p.type == "statement_block" || p.type == "function" then n
    else if p.type == "variable_declaration" || p.type == "lexical_declaration" then p
    else findDeclarationNode p rest

def detectUnusedVariables (anc0 : List SNode) (node : SNode) : List CodeIssue :=
  let decls := (node.pairs anc0).flatMap (fun p =>
    if p.2.type == "variable_declarator" then
      match p.2.childForField "name" with
      | some nm =>
        if nm.type == "identifier" then [(nm.text, (nm.info.srow + 1, p.2, p.1))]
        else []
      | none => []
    else [])
  let declaredVars := decls.foldl (fun m kv => mapUpsert m kv.1 kv.2) []
  let usedVars := (node.pairs anc0).flatMap (fun p =>
    let parentNotDecl := match p.1 with
      | par :: _ => par.type != "variable_declarator"
      | [] => true
    if p.2.type == "identifier" && parentNotDecl then [p.2.text] else [])
  declaredVars.flatMap (fun kv =>
    let name := kv.1
    if !usedVars.contains name && !jsStartsWith name "_" then
      let declNode := findDeclarationNode kv.2.2.1 kv.2.2.2
      [{ type := .DEAD_CODE, category := .CODE_SMELL, severity := .low,
         line := kv.2.1,
         message := "Variable \x27" ++ name ++ "\x27 is declared but never used",
         suggestion := some "Remove unused variable or prefix with _ if intentionally unused",
         codeSnippet := some (jsTrim declNode.text), fix := none }]
    else [])

/-- All code smells of a subtree (`CodeSmellDetector.detectSmells`). -/
def detectSmells (code : String) (anc0 : List SNode) (node : SNode) :
    List CodeIssue :=
  detectMagicNumbers anc0 node ++
  detectPoorNaming code anc0 node ++
  detectConsoleLog code anc0 node ++
  detectEmptyCatch code anc0 node ++
  detectTodoComments code ++
  detectTypeCoercion code anc0 node ++
  detectUnusedVariables anc0 node

/-! The performance detector (`PerformanceDetector`). -/

def loopTypes : List String :=
  ["for_statement", "while_statement", "for_in_statement", "for_of_statement"]

/-- Maximum loop-nesting depth inside a subtree (`countLoopDepth` maximum). -/
def countLoopDepthMax (n : SNode) : Nat :=
  ((n.pairs []).map (fun p =>
    ((p.2 :: p.1).filter (fun a => loopTypes.contains a.type)).length)).foldl max 0

def nestedLoopsAt (code : String) (n : SNode) : List CodeIssue :=
  if loopTypes.contains n.type then
    let depth := countLoopDepthMax n
    if depth ≥ 2 then
      let line := n.srow + 1
      let complexity := if depth == 2 then "O(n²)"
        else if depth == 3 then "O(n³)"
        else "O(n^" ++ toString depth ++ ")"
      [{ type := .NESTED_LOOPS, category := .PERFORMANCE,
         severity := if depth ≥ 3 then .critical else .high, line := line,
         message := "Nested loops detected - " ++ complexity ++ " complexity",
         suggestion := some "Consider using a Map/Set for lookups, or restructure algorithm",
         codeSnippet := some (getLineContent code line), fix := none }]
    else []
  else []

def detectNestedLoops (code : String) (anc0 : List SNode) (node : SNode) :
    List CodeIssue :=
  (node.pairs anc0).flatMap (fun p => nestedLoopsAt code p.2)

def isInLoopAt (anc : List SNode) : Bool :=
  anc.any (fun a => loopTypes.contains a.type)

def domMethods : List String :=
  ["querySelector", "querySelectorAll", "getElementById",
   "getElementsByClassName", "getElementsByTagName"]

def domInLoopAt (code : String) (anc : List SNode) (n : SNode) : List CodeIssue :=
  if n.type == "call_expression" && isInLoopAt anc then
    match n.childForField "function" with
    | some fnNode =>
      if fnNode.type == "member_expression" then
        match fnNode.childForField "property" with
        | some propNode =>
          if domMethods.contains propNode.text then
            let line := n.srow + 1
            [{ type := .DOM_IN_LOOP, category := .PERFORMANCE, severity := .high,
               line := line,
               message := "DOM query \x27" ++ propNode.text ++ "\x27 inside loop - very slow",
               suggestion := some "Move DOM queries outside the loop and cache results",
               codeSnippet := some (getLineContent code line), fix := none }]
          else []
        | none => []
      else []
    | none => []
  else []

def detectDOMInLoop (code : String) (anc0 : List SNode) (node : SNode) :
    List CodeIssue :=
  (node.pairs anc0).flatMap (fun p => domInLoopAt code p.1 p.2)

def isStringishType (t : String) : Bool := t == "string" || t == "template_string"

def stringConcatAt (code : String) (anc : List SNode) (n : SNode) : List CodeIssue :=
  (if n.type == "augmented_assignment_expression" && isInLoopAt anc then
    match n.childForField "operator" with
    | some op =>
      if op.text == "+=" then
        match n.childForField "right" with
        | some r =>
          if isStringishType r.type then
            let line := n.srow + 1
            [{ type := .STRING_CONCAT_IN_LOOP, category := .PERFORMANCE,
               severity := .medium, line := line,
               message := "String concatenation in loop is slow",
               suggestion := some "Use an array and join() instead: arr.push(str); return arr.join(\"\")",
               codeSnippet := some (getLineContent code line), fix := none }]
          else []
        | none => []
      else []
    | none => []
  else []) ++
  (if n.type == "binary_expression" && isInLoopAt anc then
    match n.childForField "operator" with
    | some op =>
      if op.text == "+" then
        let leftStr := match n.childForField "left" with
          | some l => isStringishType l.type
          | none => false
        let rightStr := match n.childForField "right" with
          | some r => isStringishType r.type
          | none => false
        if leftStr || rightStr then
          let line := n.srow + 1
          [{ type := .STRING_CONCAT_IN_LOOP, category := .PERFORMANCE,
             severity := .medium, line := line,
             message := "String concatenation in loop is inefficient",
             suggestion := some "Use an array and join() for better performance",
             codeSnippet := some (getLineContent code line), fix := none }]
        else []
      else []
    | none => []
  else [])

def detectStringConcatInLoop (code : String) (anc0 : List SNode) (node : SNode) :
    List CodeIssue :=
  (node.pairs anc0).flatMap (fun p => stringConcatAt code p.1 p.2)

def regexInLoopAt (code : String) (anc : List SNode) (n : SNode) : List CodeIssue :=
  if isInLoopAt anc then
    (if n.type == "regex" then
      let line := n.srow + 1
      [{ type := .REGEX_IN_LOOP, category := .PERFORMANCE, severity := .medium,
         line := line,
         message := "Regular expression created inside loop",
         suggestion := some "Define regex outside loop as a constant",
         codeSnippet := some (getLineContent code line), fix := none }]
    else []) ++
    (if n.type == "new_expression" then
      match n.childForField "constructor" with
      | some c =>
        if c.text == "RegExp" then
          let line := n.srow + 1
          [{ type := .REGEX_IN_LOOP, category := .PERFORMANCE, severity := .medium,
             line := line,
             message := "RegExp object created inside loop",
             suggestion := some "Create RegExp outside loop and reuse",
             codeSnippet := some (getLineContent code line), fix := none }]
        else []
      | none => []
    else [])
  else []

def detectRegexInLoop (code : String) (anc0 : List SNode) (node : SNode) :
    List CodeIssue :=
  (node.pairs anc0).flatMap (fun p => regexInLoopAt code p.1 p.2)

/-- Size bound for field children, used for the chained-method descent. -/
def childForField_sizeOf_lt {n v : SNode} {f : String}
    (h : n.childForField f = some v) : sizeOf v < sizeOf n := by
  cases n with
  | mk i ks =>
    simp only [SNode.childForField, Option.map_eq_some'] at h
    obtain ⟨k, hk, hv⟩ := h
    have hmem : k ∈ ks := List.mem_of_find?_eq_some hk
    have hlt : sizeOf k < sizeOf ks := List.sizeOf_lt_of_mem hmem
    have hk2 : sizeOf v ≤ sizeOf k := by
      cases k with
      | mk a b =>
        cases hv
        simp
    simp only [SNode.mk.sizeOf_spec]
    omega

/-- The member-call chain collector (`getChainedMethods`): descend through
`function` and `object` fields of nested call expressions, collecting the
called property names innermost first. -/
def getChainedMethods (n : SNode) : List String :=
  if n.type == "call_expression" then
    match h : n.childForField "function" with
    | some fnNode =>
      if fnNode.type == "member_expression" then
        let propPart : List String := match fnNode.childForField "property" with
          | some pp => [pp.text]
          | none => []
        let rest : List String := match h2 : fnNode.childForField "object" with
          | some obj => getChainedMethods obj
          | none => []
        rest ++ propPart
      else []
    | none => []
  else []
termination_by sizeOf n
decreasing_by
  exact Nat.lt_trans (childForField_sizeOf_lt h2) (childForField_sizeOf_lt h)

def inefficientArrayOpsAt (code : String) (n : SNode) : List CodeIssue :=
  if n.type == "call_expression" then
    let methods := getChainedMethods n
    let mapCount := (methods.filter (fun m => m == "map")).length
    let filterCount := (methods.filter (fun m => m == "filter")).length
    if mapCount > 1 || (mapCount > 0 && filterCount > 0) then
      let line := n.srow + 1
      [{ type := .INEFFICIENT_ARRAY_OPS, category := .PERFORMANCE,
         severity := .medium, line := line,
         message := "Multiple array iterations detected: " ++
           joinSep " → " methods,
         suggestion := some "Combine operations into a single pass for better performance",
         codeSnippet := some (getLineContent code line), fix := none }]
    else []
  else []

def detectInefficientArrayOps (code : String) (anc0 : List SNode) (node : SNode) :
    List CodeIssue :=
  (node.pairs anc0).flatMap (fun p => inefficientArrayOpsAt code p.2)

/-- All performance issues (`PerformanceDetector.detectPerformanceIssues`). -/
def detectPerformanceIssues (code : String) (anc0 : List SNode) (node : SNode) :
    List CodeIssue :=
  detectNestedLoops code anc0 node ++
  detectDOMInLoop code anc0 node ++
  detectStringConcatInLoop code anc0 node ++
  detectRegexInLoop code anc0 node ++
  detectInefficientArrayOps code anc0 node

/-! The security detector (`SecurityDetector`). -/

def evalUsageAt (code : String) (n : SNode) : List CodeIssue :=
  if n.type == "call_expression" then
    let fnNode := n.childForField "function"
    (match fnNode with
     | some f =>
       if f.type == "identifier" && f.text == "eval" then
         let line := n.srow + 1
         [{ type := .EVAL_USAGE, category := .SECURITY, severity := .critical,
            line := line,
            message := "eval() is dangerous - can execute arbitrary code",
            suggestion := some "Use safer alternatives like JSON.parse() or avoid dynamic code execution",
            codeSnippet := some (getLineContent code line), fix := none }]
       else []
     | none => []) ++
    (match fnNode with
     | some f =>
       if f.type == "identifier" && f.text == "Function" then
         let line := n.srow + 1
         [{ type := .EVAL_USAGE, category := .SECURITY, severity := .critical,
            line := line,
            message := "Function constructor is similar to eval() - security risk",
            suggestion := some "Avoid dynamic code generation",
            codeSnippet := some (getLineContent code line), fix := none }]
       else []
     | none => [])
  else []

def detectEvalUsage (code : String) (anc0 : List SNode) (node : SNode) :
    List CodeIssue :=
  (node.pairs anc0).flatMap (fun p => evalUsageAt code p.2)

def innerHTMLAt (code : String) (n : SNode) : List CodeIssue :=
  if n.type == "assignment_expression" || n.type == "augmented_assignment_expression" then
    match n.childForField "left" with
    | some l =>
      if l.type == "member_expression" then
        match l.childForField "property" with
        | some propNode =>
          if propNode.text == "innerHTML" || propNode.text == "outerHTML" then
            let line := n.srow + 1
            [{ type := .INNERHTML_USAGE, category := .SECURITY, severity := .high,
               line := line,
               message := propNode.text ++
                 " can cause XSS vulnerabilities if used with untrusted data",
               suggestion := some "Use textContent for text, or sanitize HTML with a library like DOMPurify",
               codeSnippet := some (getLineContent code line), fix := none }]
          else []
        | none => []
      else []
    | none => []
  else []

def detectInnerHTMLUsage (code : String) (anc0 : List SNode) (node : SNode) :
    List CodeIssue :=
  (node.pairs anc0).flatMap (fun p => innerHTMLAt code p.2)

/-- The secret-name patterns of `detectHardcodedSecrets`: each regular
expression of the source matches the lowered name exactly when it contains
one of the listed variants (the optional separator may be absent, an
underscore or a hyphen); paired with the display name of the secret kind. -/
def secretPatterns : List (List String × String) :=
  [(["apikey", "api_key", "api-key"], "API key"),
   (["apitoken", "api_token", "api-token"], "API token"),
   (["secretkey", "secret_key", "secret-key"], "secret key"),
   (["password"], "password"),
   (["bearertoken", "bearer_token", "bearer-token"], "bearer token"),
   (["authtoken", "auth_token", "auth-token"], "auth token"),
   (["privatekey", "private_key", "private-key"], "private key"),
   (["accesskey", "access_key", "access-key"], "access key"),
   (["clientsecret", "client_secret", "client-secret"], "client secret"),
   (["stripekey", "stripe_key", "stripe-key"], "Stripe key"),
   (["awssecret", "aws_secret", "aws-secret"], "AWS secret")]

/-- The placeholder patterns of `detectHardcodedSecrets`: all case-insensitive
substring tests except the literal three-dots pattern. -/
def isPlaceholderValue (value : String) : Bool :=
  jsIncludesAny (jsToLower value)
    ["your_", "replace", "example", "test", "demo", "xxx", "changeme", "placeholder"] ||
  jsIncludes value "..."

/-- Mask the first greedy quoted span of a line, the
`replace(quote-any-quote pattern, masked)` of the secret snippet. -/
def maskQuoted (s : String) : String :=
  let cs := s.data
  let isQ := fun c : Char => c == '"' || c == Char.ofNat 39
  match cs.findIdx? isQ with
  | none => s
  | some i =>
    let lastIdx := cs.length - 1 - ((cs.reverse.findIdx? isQ).getD 0)
    if lastIdx > i then
      ⟨cs.take i ++ ('"' :: '*' :: '*' :: '*' :: '"' :: []) ++ cs.drop (lastIdx + 1)⟩
    else s

def hardcodedSecretAt (code : String) (n : SNode) : List CodeIssue :=
  if n.type == "variable_declarator" || n.type == "property_identifier" then
    let nameNode := match n.childForField "name" with
      | some nm => nm
      | none => n
    match n.childForField "value" with
    | some valueNode =>
      let name := jsToLower nameNode.text
      secretPatterns.flatMap (fun pat =>
        if jsIncludesAny name pat.1 && valueNode.type == "string" then
          let value := valueNode.text
          if value.length > 6 && !isPlaceholderValue value then
            let line := n.srow + 1
            [{ type := .HARDCODED_SECRET, category := .SECURITY,
               severity := .critical, line := line,
               message := "Possible hardcoded " ++ pat.2 ++ " detected",
               suggestion := some "Use environment variables or a secure secrets management system",
               codeSnippet := some (maskQuoted (getLineContent code line)),
               fix := none }]
          else []
        else [])
    | none => []
  else []

def detectHardcodedSecrets (code : String) (anc0 : List SNode) (node : SNode) :
    List CodeIssue :=
  (node.pairs anc0).flatMap (fun p => hardcodedSecretAt code p.2)

def sqlKeywords : List String := ["SELECT", "INSERT", "UPDATE", "DELETE", "FROM", "WHERE"]

def sqlInjectionAt (code : String) (n : SNode) : List CodeIssue :=
  if n.type == "template_string" || n.type == "binary_expression" then
    let text := jsToUpper n.text
    if sqlKeywords.any (fun kw => jsIncludes text kw) then
      let hasInterpolation := n.type == "template_string" && jsIncludes n.text "$\x7b"
      let isConcatenation := n.type == "binary_expression"
      if hasInterpolation || isConcatenation then
        let line := n.srow + 1
        [{ type := .SQL_INJECTION_RISK, category := .SECURITY, severity := .critical,
           line := line,
           message := "SQL query with string interpolation - SQL injection risk",
           suggestion := some "Use parameterized queries or prepared statements",
           codeSnippet := some (getLineContent code line), fix := none }]
      else []
    else []
  else []

def detectSQLInjectionRisk (code : String) (anc0 : List SNode) (node : SNode) :
    List CodeIssue :=
  (node.pairs anc0).flatMap (fun p => sqlInjectionAt code p.2)

/-- All security issues (`SecurityDetector.detectSecurityIssues`). -/
def detectSecurityIssues (code : String) (anc0 : List SNode) (node : SNode) :
    List CodeIssue :=
  detectEvalUsage code anc0 node ++
  detectInnerHTMLUsage code anc0 node ++
  detectHardcodedSecrets code anc0 node ++
  detectSQLInjectionRisk code anc0 node

/-! The memory-leak detector (`MemoryLeakDetector`). -/

/-- Drop every single or double quote character
(`text.replace(quote-class-regex, empty)` in `getFirstArgument`). -/
def stripQuotes (s : String) : String :=
  ⟨s.data.filter (fun c => !(c == '"' || c == Char.ofNat 39))⟩

/-- First string-typed child of an argument list, quotes removed
(`getFirstArgument`). -/
def getFirstArgument : Option SNode → String
  | none => "unknown"
  | some args =>
    match args.children.find? (fun c => c.type == "string") with
    | some s => stripQuotes s.text
    | none => "unknown"

/-- A member call with both object and property fields: (object text, property
text, line). -/
def memberCallParts (n : SNode) : Option (String × String × Nat) :=
  if n.type == "call_expression" then
    match n.childForField "function" with
    | some f =>
      if f.type == "member_expression" then
        match f.childForField "property", f.childForField "object" with
        | some propNode, some objNode => some (objNode.text, propNode.text, n.srow + 1)
        | _, _ => none
      else none
    | none => none
  else none

def detectEventListenerLeaks (code : String) (anc0 : List SNode) (node : SNode) :
    List CodeIssue :=
  let allPairs := node.pairs anc0
  let addListenerCalls := allPairs.flatMap (fun p =>
    match memberCallParts p.2 with
    | some (element, method, line) =>
      if method == "addEventListener" then
        [(line, element, getFirstArgument (p.2.childForField "arguments"))]
      else []
    | none => [])
  let removeListenerCalls := allPairs.flatMap (fun p =>
    match memberCallParts p.2 with
    | some (element, method, _) =>
      if method == "removeEventListener" then
        [element ++ ":" ++ getFirstArgument (p.2.childForField "arguments")]
      else []
    | none => [])
  addListenerCalls.flatMap (fun c =>
    let key := c.2.1 ++ ":" ++ c.2.2
    if !removeListenerCalls.contains key then
      [{ type := .EVENT_LISTENER_LEAK, category := .MEMORY_LEAK, severity := .high,
         line := c.1,
         message := "Event listener on " ++ c.2.1 ++ " for \x27" ++ c.2.2 ++
           "\x27 is never removed - potential memory leak",
         suggestion := some ("Add removeEventListener in cleanup/unmount: " ++ c.2.1 ++
           ".removeEventListener(\x27" ++ c.2.2 ++ "\x27, handler)"),
         codeSnippet := some (getLineContent code c.1), fix := none }]
    else [])

/-- Direct calls (identifier callee) of a given name with their lines. -/
def identCallLines (name : String) (ps : List (List SNode × SNode)) : List Nat :=
  ps.flatMap (fun p =>
    if p.2.type == "call_expression" then
      match p.2.childForField "function" with
      | some f =>
        if f.type == "identifier" && f.text == name then [p.2.srow + 1] else []
      | none => []
    else [])

def detectIntervalLeaks (code : String) (anc0 : List SNode) (node : SNode) :
    List CodeIssue :=
  let allPairs := node.pairs anc0
  let setLines := identCallLines "setInterval" allPairs
  let hasSetInterval := !setLines.isEmpty
  let hasClearInterval := !(identCallLines "clearInterval" allPairs).isEmpty
  let setIntervalLine := (setLines.getLast?).getD 0
  if hasSetInterval && !hasClearInterval then
    [{ type := .INTERVAL_LEAK, category := .MEMORY_LEAK, severity := .critical,
       line := setIntervalLine,
       message := "setInterval called without corresponding clearInterval - will run forever",
       suggestion := some "Store interval ID and clear it: const id = setInterval(...); clearInterval(id);",
       codeSnippet := some (getLineContent code setIntervalLine), fix := none }]
  else []

/-- Distinct identifiers of a subtree in first-occurrence order, first five
(`findCapturedVariables`). -/
def findCapturedVariables (node : SNode) : List String :=
  (((node.pairs []).flatMap (fun p =>
    if p.2.type == "identifier" then [p.2.text] else [])).foldl
    (fun acc t => if acc.contains t then acc else acc ++ [t]) []).take 5

def closureLeakAt (code : String) (anc : List SNode) (n : SNode) : List CodeIssue :=
  let parentIsReturn := match anc with
    | par :: _ => par.type == "return_statement"
    | [] => false
  if (n.type == "arrow_function" || n.type == "function") && parentIsReturn then
    let capturedVars := findCapturedVariables n
    if capturedVars.length > 0 then
      let line := n.srow + 1
      [{ type := .CLOSURE_LEAK, category := .MEMORY_LEAK, severity := .medium,
         line := line,
         message := "Closure captures " ++ toString capturedVars.length ++
           " variable(s) - verify they don\x27t hold large objects",
         suggestion := some ("Review captured variables: " ++
           joinSep ", " capturedVars ++
           ". Consider WeakMap for object references."),
         codeSnippet := some (getLineContent code line), fix := none }]
    else []
  else []

def detectClosureLeaks (code : String) (anc0 : List SNode) (node : SNode) :
    List CodeIssue :=
  (node.pairs anc0).flatMap (fun p => closureLeakAt code p.1 p.2)

def globalLeakAt (code : String) (n : SNode) : List CodeIssue :=
  if n.type == "assignment_expression" || n.type == "call_expression" then
    let text := n.text
    if jsIncludes text "window." || jsIncludes text "global." then
      if jsIncludes text ".push(" || jsIncludes text ".concat(" ||
          (jsIncludes text "=" && jsIncludes text "||") then
        let line := n.srow + 1
        [{ type := .GLOBAL_LEAK, category := .MEMORY_LEAK, severity := .high,
           line := line,
           message := "Accumulating data in global scope - may grow unbounded",
           suggestion := some "Use local state or implement cleanup mechanism. Consider using WeakMap for automatic GC.",
           codeSnippet := some (getLineContent code line), fix := none }]
      else []
    else []
  else []

def detectGlobalLeaks (code : String) (anc0 : List SNode) (node : SNode) :
    List CodeIssue :=
  (node.pairs anc0).flatMap (fun p => globalLeakAt code p.2)

/-- All memory-leak issues (`MemoryLeakDetector.detectLeaks`). -/
def detectLeaks (code : String) (anc0 : List SNode) (node : SNode) :
    List CodeIssue :=
  detectEventListenerLeaks code anc0 node ++
  detectIntervalLeaks code anc0 node ++
  detectClosureLeaks code anc0 node ++
  detectGlobalLeaks code anc0 node

/-! The architecture detector (`ArchitectureDetector`). -/

/-- Class or method name from the `name` field (`getClassName` / `getMethodName`). -/
def getNameOrAnonymous (n : SNode) : String :=
  match n.childForField "name" with
  | some nm => nm.text
  | none => "<anonymous>"

/-- Method names of a class subtree (`getClassMethods`). -/
def getClassMethods (classNode : SNode) : List String :=
  (classNode.pairs []).flatMap (fun p =>
    if p.2.type == "method_definition" then
      match p.2.childForField "name" with
      | some nm => [nm.text]
      | none => []
    else [])

/-- Domain keyword table of `identifyMethodDomains`, in source insertion order. -/
def domainKeywords : List (String × String) :=
  [("email", "Email"), ("send", "Email"), ("mail", "Email"),
   ("payment", "Payment"), ("charge", "Payment"), ("pay", "Payment"),
   ("invoice", "Payment"), ("user", "User"), ("auth", "Auth"),
   ("login", "Auth"), ("logout", "Auth"), ("validate", "Validation"),
   ("verify", "Validation"), ("report", "Reporting"), ("generate", "Reporting"),
   ("log", "Logging"), ("track", "Logging"), ("save", "Persistence"),
   ("update", "Persistence"), ("delete", "Persistence"), ("create", "Persistence"),
   ("get", "Query"), ("fetch", "Query"), ("find", "Query")]

/-- Ordered set insertion: keep first occurrence. -/
def orderedInsert (l : List String) (s : String) : List String :=
  if l.contains s then l else l ++ [s]

/-- Distinct inferred method domains in insertion order (`identifyMethodDomains`);
a method matches the first keyword contained in its lowered name, or `Other`. -/
def identifyMethodDomains (methods : List String) : List String :=
  methods.foldl (fun domains m =>
    let lowerMethod := jsToLower m
    match domainKeywords.find? (fun kv => jsIncludes lowerMethod kv.1) with
    | some kv => orderedInsert domains kv.2
    | none => orderedInsert domains "Other") []

def godClassAt (code : String) (n : SNode) : List CodeIssue :=
  if n.type == "class_declaration" || n.type == "class" then
    let className := getNameOrAnonymous n
    let methods := getClassMethods n
    let methodCount := methods.length
    let line := n.srow + 1
    (if methodCount > 10 then
      [{ type := .GOD_CLASS, category := .ARCHITECTURE,
         severity := if methodCount > 20 then .critical else .high, line := line,
         message := "Class \x27" ++ className ++ "\x27 has " ++ toString methodCount ++
           " methods - likely has too many responsibilities (God Class)",
         suggestion := some ("Consider splitting into multiple smaller classes. " ++
           "Single Responsibility Principle suggests " ++
           toString (jsCeilNat methodCount 10) ++ " separate classes."),
         codeSnippet := some (getLineContent code line), fix := none }]
    else []) ++
    (let domains := identifyMethodDomains methods
     if domains.length > 3 && methodCount > 5 then
      [{ type := .GOD_CLASS, category := .ARCHITECTURE, severity := .high,
         line := line,
         message := "Class \x27" ++ className ++ "\x27 handles " ++
           toString domains.length ++ " different concerns: " ++
           joinSep ", " domains,
         suggestion := some "Split class by concern/domain (e.g., separate Email, Payment, User logic)",
         codeSnippet := some (getLineContent code line), fix := none }]
    else [])
  else []

def detectGodClassIssues (code : String) (anc0 : List SNode) (node : SNode) :
    List CodeIssue :=
  (node.pairs anc0).flatMap (fun p => godClassAt code p.2)

/-- Increment a counter in an insertion-ordered association list. -/
def countUpsert (m : List (String × Nat)) (k : String) : List (String × Nat) :=
  if m.any (fun e => e.1 == k) then
    m.map (fun e => if e.1 == k then (e.1, e.2 + 1) else e)
  else m ++ [(k, 1)]

/-- Member accesses per object identifier, in first-access order
(`countExternalPropertyAccess`). -/
def countExternalPropertyAccess (n : SNode) : List (String × Nat) :=
  (n.pairs []).foldl (fun access p =>
    if p.2.type == "member_expression" then
      match p.2.childForField "object" with
      | some objNode =>
        if objNode.type == "identifier" then countUpsert access objNode.text
        else access
      | none => access
    else access) []

def featureEnvyAt (code : String) (n : SNode) : List CodeIssue :=
  if n.type == "method_definition" || n.type == "function_declaration" then
    let externalAccess := countExternalPropertyAccess n
    externalAccess.flatMap (fun oc =>
      if oc.2 > 3 && oc.1 != "this" && oc.1 != "self" then
        let line := n.srow + 1
        let methodName := getNameOrAnonymous n
        [{ type := .FEATURE_ENVY, category := .ARCHITECTURE, severity := .medium,
           line := line,
           message := "Method \x27" ++ methodName ++ "\x27 accesses \x27" ++ oc.1 ++
             "\x27 properties " ++ toString oc.2 ++ " times - Feature Envy",
           suggestion := some ("Consider moving this logic into \x27" ++ oc.1 ++
             "\x27 class or create a new class to handle this behavior"),
           codeSnippet := some (getLineContent code line), fix := none }]
      else [])
  else []

def detectFeatureEnvy (code : String) (anc0 : List SNode) (node : SNode) :
    List CodeIssue :=
  (node.pairs anc0).flatMap (fun p => featureEnvyAt code p.2)

/-- Import statement count of a subtree (`countImports`). -/
def countImports (node : SNode) : Nat :=
  (node.pairs []).countP (fun p =>
    p.2.type == "import_statement" || p.2.type == "import_declaration")

def detectTightCoupling (node : SNode) : List CodeIssue :=
  let count := countImports node
  if count > 10 then
    [{ type := .TIGHT_COUPLING, category := .ARCHITECTURE,
       severity := if count > 15 then .high else .medium, line := 1,
       message := "File has " ++ toString count ++ " imports - indicates tight coupling",
       suggestion := some "Consider grouping related imports into facade modules or using dependency injection",
       codeSnippet := some (toString count ++ " import statements"), fix := none }]
  else []

/-- Destructured property count under a parameter list
(`countDestructuredProperties`). -/
def countDestructuredProperties (paramsNode : SNode) : Nat :=
  ((paramsNode.pairs []).map (fun p =>
    if p.2.type == "object_pattern" then
      (p.2.children.filter (fun c =>
        c.type == "shorthand_property_identifier" || c.type == "pair" ||
        c.type == "shorthand_property_identifier_pattern")).length
    else 0)).sum

def missingAbstractionAt (code : String) (n : SNode) : List CodeIssue :=
  if n.type == "method_definition" || n.type == "function_declaration" then
    match n.childForField "parameters" with
    | some params =>
      let destructuredProps := countDestructuredProperties params
      if destructuredProps > 5 then
        let line := n.srow + 1
        let methodName := getNameOrAnonymous n
        [{ type := .MISSING_ABSTRACTION, category := .ARCHITECTURE,
           severity := .medium, line := line,
           message := "Function \x27" ++ methodName ++ "\x27 destructures " ++
             toString destructuredProps ++ " properties - missing domain object",
           suggestion := some ("Create a domain class/type to encapsulate these " ++
             toString destructuredProps ++ " properties"),
           codeSnippet := some (getLineContent code line), fix := none }]
      else []
    | none => []
  else []

def detectMissingAbstraction (code : String) (anc0 : List SNode) (node : SNode) :
    List CodeIssue :=
  (node.pairs anc0).flatMap (fun p => missingAbstractionAt code p.2)

/-- All architecture issues (`ArchitectureDetector.detectArchitectureIssues`). -/
def detectArchitectureIssues (code : String) (anc0 : List SNode) (node : SNode) :
    List CodeIssue :=
  detectGodClassIssues code anc0 node ++
  detectFeatureEnvy code anc0 node ++
  detectTightCoupling node ++
  detectMissingAbstraction code anc0 node

/-! The fix generator (`FixGenerator`). -/

/-- The `getLine` helper: a missing or empty line yields the fallback text. -/
def fgGetLine (lines : List String) (lineNumber : Nat) : String :=
  match lineAt lines (lineNumber - 1) with
  | some l => if l.data.isEmpty then "<code not available>" else jsTrim l
  | none => "<code not available>"

/-- The recurring `issue.codeSnippet || this.getLine(issue.line)` idiom; an
empty snippet is falsy and falls back to the source line. -/
def fgOriginal (code : String) (issue : CodeIssue) : String :=
  match issue.codeSnippet with
  | some s => if s.data.isEmpty then fgGetLine (splitLines code) issue.line else s
  | none => fgGetLine (splitLines code) issue.line

/-- First match of the quoted-capture pattern: an apostrophe, one or more
non-apostrophe characters, an apostrophe; scanning restarts after a failed
start the way a regex engine does. -/
def matchQuotedAux (q : Char) : List Char → Option String
  | [] => none
  | c :: cs =>
    if c == q then
      let cap := cs.takeWhile (fun x => x != q)
      let rest := cs.dropWhile (fun x => x != q)
      match rest with
      | _ :: _ => if cap.isEmpty then matchQuotedAux q cs else some ⟨cap⟩
      | [] => none
    else matchQuotedAux q cs

def extractQuoted (s : String) : Option String := matchQuotedAux (Char.ofNat 39) s.data

/-- Replace the first `prop`‑whitespace‑equals occurrence by the replacement
text (the `.innerHTML`/`.outerHTML` assignment rewrite). -/
def replacePropAssignAux (prop rep : List Char) : List Char → List Char
  | [] => []
  | c :: cs =>
    if listStartsWith prop (c :: cs) then
      let rest := (c :: cs).drop prop.length
      let restNoWs := rest.dropWhile (fun x : Char => x.isWhitespace)
      match restNoWs with
      | e :: es =>
        if e == '=' then rep ++ es
        else c :: replacePropAssignAux prop rep cs
      | [] => c :: replacePropAssignAux prop rep cs
    else c :: replacePropAssignAux prop rep cs

def jsReplacePropAssign (s prop rep : String) : String :=
  ⟨replacePropAssignAux prop.data rep.data s.data⟩

/-- The fix table of `FixGenerator.generateFix`; issue types outside its
switch fall through to `none`. -/
def generateFix (code : String) (issue : CodeIssue) : Option FGFix :=
  match issue.type with
  | .TYPE_COERCION =>
    let originalCode := fgOriginal code issue
    let fixed := jsReplaceWsOp (jsReplaceWsOp originalCode '=' '=' " === ") '!' '=' " !== "
    some ⟨issue.type, "Replace == with === for strict equality",
      originalCode, fixed, true⟩
  | .CONSOLE_LOG =>
    let originalCode := fgOriginal code issue
    some ⟨issue.type, "Remove console.log statement",
      originalCode, "// " ++ originalCode ++ " // Removed by analyzer", true⟩
  | .DEAD_CODE =>
    let originalCode := fgOriginal code issue
    some ⟨issue.type, "Remove unused variable declaration",
      originalCode, "// " ++ originalCode ++ " // Unused - removed", true⟩
  | .MAGIC_NUMBER =>
    let originalCode := fgOriginal code issue
    let number := (extractQuoted issue.message).getD ""
    some ⟨issue.type, "Extract magic number to named constant", originalCode,
      "const CONSTANT_NAME = " ++ number ++ ";\n" ++
        jsReplaceFirst originalCode number "CONSTANT_NAME", false⟩
  | .STRING_CONCAT_IN_LOOP =>
    let originalCode := fgOriginal code issue
    some ⟨issue.type, "Use array.join() instead of string concatenation",
      originalCode,
      "// Before loop: const parts = [];\n// In loop: parts.push(value);\n" ++
        "// After loop: const result = parts.join(\x27\x27);", false⟩
  | .EMPTY_CATCH =>
    let originalCode := fgOriginal code issue
    some ⟨issue.type, "Add error handling to empty catch block", originalCode,
      "catch (error) \x7b\n  console.error(\x27Error:\x27, error);\n" ++
        "  // TODO: Handle error appropriately\n\x7d", false⟩
  | .EVAL_USAGE =>
    some ⟨issue.type, "Remove eval() and use safer alternatives",
      fgOriginal code issue,
      "// SECURITY: Replace eval() with JSON.parse() for JSON, or Function() " ++
        "constructor for specific cases\n// Consider using a sandboxed " ++
        "environment if dynamic code execution is required", false⟩
  | .INNERHTML_USAGE =>
    let originalCode := fgOriginal code issue
    let fixed := jsReplacePropAssign
      (jsReplacePropAssign originalCode ".innerHTML" ".textContent =")
      ".outerHTML" ".textContent ="
    some ⟨issue.type, "Use textContent instead of innerHTML to prevent XSS",
      originalCode, fixed ++ "\n// Or use DOMPurify.sanitize() if HTML is required",
      false⟩
  | .HARDCODED_SECRET =>
    some ⟨issue.type, "Move secret to environment variable",
      fgOriginal code issue,
      "// Load from environment: process.env.SECRET_NAME\n// Or use a secrets " ++
        "manager like AWS Secrets Manager, HashiCorp Vault", false⟩
  | .DOM_IN_LOOP =>
    some ⟨issue.type, "Cache DOM query outside the loop",
      fgOriginal code issue,
      "// Before loop:\nconst element = document.querySelector(\x27.selector\x27);" ++
        "\n// Use \x27element\x27 inside loop", false⟩
  | .NESTED_LOOPS =>
    some ⟨issue.type, "Consider algorithmic optimization",
      fgOriginal code issue,
      "// Consider:\n// 1. Using Map/Set for O(1) lookups instead of nested " ++
        "loops\n// 2. Breaking into separate functions\n// 3. Using array " ++
        "methods like filter/map/reduce", false⟩
  | .TOO_MANY_PARAMETERS =>
    some ⟨issue.type, "Use options object pattern",
      fgOriginal code issue,
      "// function name(options) \x7b\n//   const \x7b param1, param2, param3 " ++
        "\x7d = options;\n//   ...\n// \x7d", false⟩
  | .HIGH_COMPLEXITY =>
    some ⟨issue.type, "Refactor into smaller functions",
      fgOriginal code issue,
      "// Break this function into smaller, focused functions\n// Extract " ++
        "conditional logic into separate functions\n// Use early returns to " ++
        "reduce complexity", false⟩
  | .DEEP_NESTING =>
    some ⟨issue.type, "Use early returns and guard clauses",
      fgOriginal code issue,
      "// Use early returns:\n// if (!condition) return;\n// Continue with " ++
        "main logic...\n// Or extract nested blocks into separate functions", false⟩
  | _ => none

/-! The parsers (`JavaScriptParser`, `PythonParser`). The external tree-sitter
step is modelled by passing the already-parsed root node alongside the source
text; the `new Date()` stamps are modelled by the explicit `now` input. -/

/-- Numeric addition of scaled decimals. -/
def JSNum.add (a b : JSNum) : JSNum :=
  ⟨a.m * (10 : Int) ^ b.k + b.m * (10 : Int) ^ a.k, a.k + b.k⟩

/-- Numeric maximum of scaled decimals (`Math.max`). -/
def JSNum.maxN (a b : JSNum) : JSNum := if a.numLt b then b else a

/-- The threshold checks shared verbatim by both parsers (`detectIssues`);
the two sources differ only in their too-many-parameters suggestion text. -/
def detectIssuesCommon (paramSuggestion : String) (metrics : ComplexityMetrics)
    (functionName : String) (line : Nat) : List CodeIssue :=
  let cfg := DEFAULT_CONFIG
  (if metrics.cyclomaticComplexity.numGt (JSNum.ofNat cfg.cyclomaticThreshold) then
    [{ type := .HIGH_COMPLEXITY, category := .COMPLEXITY,
       severity := if metrics.cyclomaticComplexity.numGt (JSNum.ofNat 20) then .critical else .high,
       line := line,
       message := "Function \x27" ++ functionName ++ "\x27 has cyclomatic complexity of " ++
         metrics.cyclomaticComplexity.toStr ++ " (threshold: " ++
         toString cfg.cyclomaticThreshold ++ ")",
       suggestion := some "Consider breaking this function into smaller functions",
       codeSnippet := none, fix := none }]
  else []) ++
  (if metrics.cognitiveComplexity.numGt (JSNum.ofNat cfg.cognitiveThreshold) then
    [{ type := .HIGH_COMPLEXITY, category := .COMPLEXITY,
       severity := if metrics.cognitiveComplexity.numGt (JSNum.ofNat 25) then .critical else .high,
       line := line,
       message := "Function \x27" ++ functionName ++ "\x27 has cognitive complexity of " ++
         metrics.cognitiveComplexity.toStr ++ " (threshold: " ++
         toString cfg.cognitiveThreshold ++ ")",
       suggestion := some "Simplify logic and reduce nesting levels",
       codeSnippet := none, fix := none }]
  else []) ++
  (if metrics.nestingDepth.numGt (JSNum.ofNat cfg.maxNestingDepth) then
    [{ type := .DEEP_NESTING, category := .COMPLEXITY, severity := .medium,
       line := line,
       message := "Function \x27" ++ functionName ++ "\x27 has nesting depth of " ++
         metrics.nestingDepth.toStr ++ " (max: " ++ toString cfg.maxNestingDepth ++ ")",
       suggestion := some "Use early returns or extract nested logic into separate functions",
       codeSnippet := none, fix := none }]
  else []) ++
  (if metrics.functionLength.numGt (JSNum.ofNat cfg.maxFunctionLength) then
    [{ type := .LONG_FUNCTION, category := .MAINTAINABILITY,
       severity := if metrics.functionLength.numGt (JSNum.ofNat 100) then .high else .medium,
       line := line,
       message := "Function \x27" ++ functionName ++ "\x27 is " ++
         metrics.functionLength.toStr ++ " lines long (max: " ++
         toString cfg.maxFunctionLength ++ ")",
       suggestion := some "Break down into smaller, focused functions",
       codeSnippet := none, fix := none }]
  else []) ++
  (if metrics.parameterCount.numGt (JSNum.ofNat cfg.maxParameters) then
    [{ type := .TOO_MANY_PARAMETERS, category := .MAINTAINABILITY, severity := .medium,
       line := line,
       message := "Function \x27" ++ functionName ++ "\x27 has " ++
         metrics.parameterCount.toStr ++ " parameters (max: " ++
         toString cfg.maxParameters ++ ")",
       suggestion := some paramSuggestion,
       codeSnippet := none, fix := none }]
  else [])

def jsDetectIssues : ComplexityMetrics → String → Nat → List CodeIssue :=
  detectIssuesCommon "Consider using an options object or splitting the function"

def pyDetectIssues : ComplexityMetrics → String → Nat → List CodeIssue :=
  detectIssuesCommon "Consider using a dictionary or dataclass for parameters"

/-- Run every detector over a function subtree and attach generated fixes,
the shared tail of `analyzeFunction` in both parsers. -/
def runDetectorsAndFixes (baseIssues : List CodeIssue) (functionCode : String)
    (anc : List SNode) (node : SNode) : List CodeIssue :=
  let issues := baseIssues ++
    detectSmells functionCode anc node ++
    detectPerformanceIssues functionCode anc node ++
    detectSecurityIssues functionCode anc node ++
    detectLeaks functionCode anc node ++
    detectArchitectureIssues functionCode anc node
  issues.map (fun issue =>
    match generateFix functionCode issue with
    | some f => { issue with fix := some f }
    | none => issue)

/-- `JavaScriptParser.analyzeFunction`; `anc` is the ancestor chain of the
function node inside the file tree (its head is `node.parent`). -/
def jsAnalyzeFunction (lang : String) (code : String) (anc : List SNode)
    (node : SNode) : FunctionInfo :=
  let name := getFunctionNameOf node
  let startLine := node.info.srow + 1
  let endLine := node.info.erow + 1
  let functionLength := endLine - startLine + 1
  let cyclomaticComplexity := cyclomaticCalculate lang node
  let cognitiveComplexity := cognitiveCalculate lang (anc.head?.map SNode.type) node
  let nestingDepth := calculateMaxNesting jsNestingBlockTypes node
  let parameterCount := countParametersJS node
  let functionCode := jsSubstring code node.info.sidx node.info.eidx
  let lineCount := countLines functionCode
  let metrics : ComplexityMetrics :=
    { cyclomaticComplexity := JSNum.ofNat cyclomaticComplexity,
      cognitiveComplexity := JSNum.ofNat cognitiveComplexity,
      linesOfCode := JSNum.ofNat lineCount.total,
      effectiveLinesOfCode := JSNum.ofNat lineCount.effective,
      nestingDepth := JSNum.ofNat nestingDepth,
      functionLength := JSNum.ofNat functionLength,
      parameterCount := JSNum.ofNat parameterCount }
  let issues := runDetectorsAndFixes (jsDetectIssues metrics name startLine)
    functionCode anc node
  { name := name, startLine := startLine, endLine := endLine,
    metrics := metrics, issues := issues }

def jsFunctionTypes : List String :=
  ["function_declaration", "function", "arrow_function", "method_definition",
   "function_expression"]

def jsAnalyzeFunctions (lang : String) (code : String) (root : SNode) :
    List FunctionInfo :=
  (extractFunctionPairs jsFunctionTypes root).map
    (fun p => jsAnalyzeFunction lang code p.1 p.2)

/-- `calculateOverallMetrics`, shared verbatim by both parsers: one-decimal
rounded means over the file-level functions, maximum nesting, file line
counts. `Math.round(avg * 10)` is computed exactly on the rational average. -/
def calculateOverallMetrics (functions : List FunctionInfo)
    (lineCount : LineCount) : ComplexityMetrics :=
  match functions with
  | [] =>
    { createEmptyMetrics with
      linesOfCode := JSNum.ofNat lineCount.total,
      effectiveLinesOfCode := JSNum.ofNat lineCount.effective }
  | f0 :: rest =>
    let fns := f0 :: rest
    let len : Int := (fns.length : Int)
    let sumCyc := (fns.map (fun fn => fn.metrics.cyclomaticComplexity)).foldl JSNum.add ⟨0, 0⟩
    let sumCog := (fns.map (fun fn => fn.metrics.cognitiveComplexity)).foldl JSNum.add ⟨0, 0⟩
    let maxNesting := (rest.map (fun fn => fn.metrics.nestingDepth)).foldl JSNum.maxN
      f0.metrics.nestingDepth
    { cyclomaticComplexity := ⟨jsRoundDiv (10 * sumCyc.m) (len * (10 : Int) ^ sumCyc.k), 1⟩,
      cognitiveComplexity := ⟨jsRoundDiv (10 * sumCog.m) (len * (10 : Int) ^ sumCog.k), 1⟩,
      linesOfCode := JSNum.ofNat lineCount.total,
      effectiveLinesOfCode := JSNum.ofNat lineCount.effective,
      nestingDepth := maxNesting,
      functionLength := JSNum.ofNat 0,
      parameterCount := JSNum.ofNat 0 }

/-- Push the file-level issues into the first function record. -/
def pushIssuesFirstFn (fns : List FunctionInfo) (fileIssues : List CodeIssue) :
    List FunctionInfo :=
  match fns with
  | [] => []
  | f :: r => { f with issues := f.issues ++ fileIssues } :: r

/-- `JavaScriptParser.parse`: analyze all function subtrees, attach file-level
architecture issues to the first function when one exists, and roll up.
Class analysis is unimplemented in the source (`classes` is always empty). -/
def jsParse (isTS : Bool) (root : SNode) (code filePath : String) (now : Nat) :
    FileAnalysis :=
  let lang := if isTS then "typescript" else "javascript"
  let languageName := if isTS then "TypeScript" else "JavaScript"
  let lineCount := countLines code
  let functions := jsAnalyzeFunctions lang code root
  let overallMetrics := calculateOverallMetrics functions lineCount
  let fileIssues := detectArchitectureIssues code [] root
  let functions2 :=
    if !fileIssues.isEmpty && !functions.isEmpty then
      pushIssuesFirstFn functions fileIssues
    else functions
  { filePath := filePath, language := languageName,
    overallMetrics := overallMetrics, functions := functions2, classes := [],
    totalIssues := functions2.foldl (fun sum fn => sum + fn.issues.length) 0,
    analysisDate := now }

/-- `PythonParser.countPythonParameters`: parameter-kind children excluding
`self` and `cls` after stripping annotation and default suffixes. -/
def countPythonParameters (node : SNode) : Nat :=
  match node.childForField "parameters" with
  | some params =>
    params.children.countP (fun child =>
      (child.type == "identifier" || child.type == "typed_parameter" ||
        child.type == "default_parameter" || child.type == "typed_default_parameter") &&
      (let paramName := jsTrim ⟨(child.text.data.takeWhile (fun c => c != ':')).takeWhile
          (fun c => c != '=')⟩
       paramName != "self" && paramName != "cls"))
  | none => 0

/-- `PythonParser.analyzeFunction`. -/
def pyAnalyzeFunction (code : String) (anc : List SNode) (node : SNode) :
    FunctionInfo :=
  let name := getFunctionNameOf node
  let startLine := node.info.srow + 1
  let endLine := node.info.erow + 1
  let functionLength := endLine - startLine + 1
  let cyclomaticComplexity := cyclomaticCalculate "python" node
  let cognitiveComplexity := cognitiveCalculate "python" (anc.head?.map SNode.type) node
  let nestingDepth := calculateMaxNesting pyNestingBlockTypes node
  let parameterCount := countPythonParameters node
  let functionCode := jsSubstring code node.info.sidx node.info.eidx
  let lineCount := countLines functionCode
  let metrics : ComplexityMetrics :=
    { cyclomaticComplexity := JSNum.ofNat cyclomaticComplexity,
      cognitiveComplexity := JSNum.ofNat cognitiveComplexity,
      linesOfCode := JSNum.ofNat lineCount.total,
      effectiveLinesOfCode := JSNum.ofNat lineCount.effective,
      nestingDepth := JSNum.ofNat nestingDepth,
      functionLength := JSNum.ofNat functionLength,
      parameterCount := JSNum.ofNat parameterCount }
  let issues := runDetectorsAndFixes (pyDetectIssues metrics name startLine)
    functionCode anc node
  { name := name, startLine := startLine, endLine := endLine,
    metrics := metrics, issues := issues }

def pyFunctionTypes : List String := ["function_definition"]

/-- Whether the extracted function node has a class definition among its
ancestors (the standalone filter of `PythonParser.analyzeFunctions`). -/
def hasClassAncestor (anc : List SNode) : Bool :=
  anc.any (fun a => a.type == "class_definition")

/-- The standalone-function pairs kept at file level by the Python parser. -/
def pyStandalonePairs (root : SNode) : List (List SNode × SNode) :=
  (extractFunctionPairs pyFunctionTypes root).filter (fun p => !hasClassAncestor p.1)

def pyAnalyzeFunctions (code : String) (root : SNode) : List FunctionInfo :=
  (pyStandalonePairs root).map (fun p => pyAnalyzeFunction code p.1 p.2)

def getClassNameOf (n : SNode) : String :=
  match n.childForField "name" with
  | some nm => nm.text
  | none => "AnonymousClass"

/-- `PythonParser.calculateClassMetrics`. -/
def calculateClassMetrics (methods : List FunctionInfo) : ComplexityMetrics :=
  match methods with
  | [] => createEmptyMetrics
  | m0 :: rest =>
    let ms := m0 :: rest
    let len : Int := (ms.length : Int)
    let totalCyclomatic := (ms.map (fun m => m.metrics.cyclomaticComplexity)).foldl JSNum.add ⟨0, 0⟩
    let totalCognitive := (ms.map (fun m => m.metrics.cognitiveComplexity)).foldl JSNum.add ⟨0, 0⟩
    let maxNesting := (rest.map (fun m => m.metrics.nestingDepth)).foldl JSNum.maxN
      m0.metrics.nestingDepth
    let totalLOC := (ms.map (fun m => m.metrics.linesOfCode)).foldl JSNum.add ⟨0, 0⟩
    let totalEffectiveLOC := (ms.map (fun m => m.metrics.effectiveLinesOfCode)).foldl JSNum.add ⟨0, 0⟩
    { cyclomaticComplexity := ⟨jsRoundDiv (10 * totalCyclomatic.m) (len * (10 : Int) ^ totalCyclomatic.k), 1⟩,
      cognitiveComplexity := ⟨jsRoundDiv (10 * totalCognitive.m) (len * (10 : Int) ^ totalCognitive.k), 1⟩,
      linesOfCode := totalLOC,
      effectiveLinesOfCode := totalEffectiveLOC,
      nestingDepth := maxNesting,
      functionLength := JSNum.ofNat ms.length,
      parameterCount := JSNum.ofNat 0 }

/-- `PythonParser.analyzeClass`: the methods are the `function_definition`
children of the class `body` field child. -/
def pyAnalyzeClassNode (code : String) (anc : List SNode) (node : SNode) : ClassInfo :=
  let name := getClassNameOf node
  let startLine := node.info.srow + 1
  let endLine := node.info.erow + 1
  let methods : List FunctionInfo :=
    match node.childForField "body" with
    | some classBody =>
      classBody.kids.flatMap (fun k =>
        if k.2.type == "function_definition" then
          [pyAnalyzeFunction code (classBody :: node :: anc) k.2]
        else [])
    | none => []
  { name := name, startLine := startLine, endLine := endLine,
    methods := methods, metrics := calculateClassMetrics methods }

def pyAnalyzeClasses (code : String) (root : SNode) : List ClassInfo :=
  ((root.pairs []).filter (fun p => p.2.type == "class_definition")).map
    (fun p => pyAnalyzeClassNode code p.1 p.2)

/-- Push the file-level issues into the first method of the first class. -/
def pushIssuesFirstClassMethod (classes : List ClassInfo)
    (fileIssues : List CodeIssue) : List ClassInfo :=
  match classes with
  | [] => []
  | c :: r =>
    { c with methods :=
        match c.methods with
        | [] => []
        | m :: mr => { m with issues := m.issues ++ fileIssues } :: mr } :: r

/-- `PythonParser.parse`. -/
def pyParse (root : SNode) (code filePath : String) (now : Nat) : FileAnalysis :=
  let lineCount := countLines code
  let functions := pyAnalyzeFunctions code root
  let classes := pyAnalyzeClasses code root
  let overallMetrics := calculateOverallMetrics functions lineCount
  let fileIssues := detectArchitectureIssues code [] root
  let functions2 :=
    if !fileIssues.isEmpty && !functions.isEmpty then
      pushIssuesFirstFn functions fileIssues
    else functions
  let classes2 :=
    if !fileIssues.isEmpty && functions.isEmpty &&
        (match classes with
         | c :: _ => !c.methods.isEmpty
         | [] => false) then
      pushIssuesFirstClassMethod classes fileIssues
    else classes
  let classIssues := classes2.foldl (fun sum cls =>
    sum + cls.methods.foldl (fun methodSum m => methodSum + m.issues.length) 0) 0
  { filePath := filePath, language := "Python",
    overallMetrics := overallMetrics, functions := functions2, classes := classes2,
    totalIssues := functions2.foldl (fun sum fn => sum + fn.issues.length) 0 + classIssues,
    analysisDate := now }

/-! Specification-side comparison definitions. Each is written from the words
of the specification or claim it is compared against, never from the source,
and is used only to exhibit agreement or disagreement with the source-derived
definitions above. -/

/-- Modelled from the claim wording for the C-like decision vocabulary: the
standard branching constructs plus a short-circuit logical-operator node,
which is a logical or binary expression node whose operator is one of the
and, or, nullish operators. -/
def specCLikeDecisionNode (n : SNode) : Bool :=
  ["if_statement", "for_statement", "while_statement", "do_statement",
   "switch_case", "catch_clause", "ternary_expression",
   "conditional_expression"].contains n.type ||
  ((n.type == "logical_expression" || n.type == "binary_expression") &&
    (match n.childForField "operator" with
     | some op => op.text == "&&" || op.text == "||" || op.text == "??"
     | none => false))

/-- Modelled from the claim wording for cognitive complexity: every
break-in-flow node contributes one plus the number of break-in-flow ancestors
strictly between it and the walked root. -/
def specCogIncrements (bf : List String) (t : SNode) : Nat :=
  ((t.pairs []).map (fun p =>
    if bf.contains p.2.type then
      1 + (p.1.filter (fun a => bf.contains a.type)).length
    else 0)).sum

/-- Value-side part of the specification trigger below: the assigned node is
a string literal of text length greater than six whose value matches no
placeholder pattern, and the (lowered) name matches a secret-name pattern. -/
def specSecretValueCheck (n : SNode) : Option SNode → Bool
  | some valueNode =>
    (secretPatterns.any (fun pat =>
      jsIncludesAny
        (jsToLower (match n.childForField "name" with
          | some nm => nm
          | none => n).text) pat.1)) &&
    (valueNode.type == "string") &&
    decide (valueNode.text.length > 6) &&
    !isPlaceholderValue valueNode.text
  | none => false

/-- Modelled from the specification row for the hardcoded-secret detector: a
variable or property node whose (lowered) name matches one of the secret-name
patterns, assigned a string literal of text length greater than six whose
value matches no placeholder pattern. -/
def specSecretTrigger (n : SNode) : Bool :=
  (n.type == "variable_declarator" || n.type == "property_identifier") &&
    specSecretValueCheck n (n.childForField "value")

/-- Whether every numeric literal of a subtree parses to an allow-listed
value. -/
def allNumbersAcceptable (anc0 : List SNode) (t : SNode) : Bool :=
  (t.pairs anc0).all (fun p =>
    p.2.type != "number" || acceptableHas (jsParseNum p.2.text))

/-- The issue types `generateFix` rewrites automatically. -/
def fixAutomatedTypes : List IssueType :=
  [.TYPE_COERCION, .CONSOLE_LOG, .DEAD_CODE]

/-- The issue types `generateFix` answers with a non-automated guidance
record. -/
def fixGuidanceTypes : List IssueType :=
  [.MAGIC_NUMBER, .STRING_CONCAT_IN_LOOP, .EMPTY_CATCH, .EVAL_USAGE,
   .INNERHTML_USAGE, .HARDCODED_SECRET, .DOM_IN_LOOP, .NESTED_LOOPS,
   .TOO_MANY_PARAMETERS, .HIGH_COMPLEXITY, .DEEP_NESTING]

/-! Concrete input trees used by the per-claim evaluations. -/

def mkNode (ty txt : String) (ks : List (Option String × SNode)) : SNode :=
  SNode.mk ⟨ty, txt, true, 0, 0, 0, 0⟩ ks

def mkLeaf (ty txt : String) : SNode := mkNode ty txt []

/-- A function with no decision construct: its body is a single return of the
arithmetic sum `a + b` (a binary-expression node whose operator is plus). -/
def c1Tree : SNode :=
  mkNode "function_declaration" "function f(a, b) return a + b" [
    (some "name", mkLeaf "identifier" "f"),
    (some "body", mkNode "statement_block" "return a + b;" [
      (none, mkNode "return_statement" "return a + b;" [
        (none, mkNode "binary_expression" "a + b" [
          (some "left", mkLeaf "identifier" "a"),
          (some "operator", SNode.mk ⟨"+", "+", false, 0, 0, 0, 0⟩ []),
          (some "right", mkLeaf "identifier" "b")])])])]

/-- A function whose body has two sibling if statements; the first contains a
nested if. The two siblings have identical break-in-flow ancestor chains. -/
def c4Tree : SNode :=
  mkNode "function_declaration" "function g() ..." [
    (some "name", mkLeaf "identifier" "g"),
    (some "body", mkNode "statement_block" "..." [
      (none, mkNode "if_statement" "if (a) if (b) x;" [
        (none, mkNode "if_statement" "if (b) x;" [])]),
      (none, mkNode "if_statement" "if (c) y;" [])])]

def c2Code : String := "let x;"

/-- A file with no functions and no architecture triggers. -/
def c2Root : SNode :=
  mkNode "program" "let x;" [
    (none, mkNode "lexical_declaration" "let x;" [
      (none, mkNode "variable_declarator" "x" [
        (some "name", mkLeaf "identifier" "x")])])]

/-- A numeric literal 4 (a power of two below 1024) in plain initializer
position. -/
def c6Tree : SNode :=
  mkNode "program" "const x = 4;" [
    (none, mkNode "lexical_declaration" "const x = 4;" [
      (none, mkNode "variable_declarator" "x = 4" [
        (some "name", mkLeaf "identifier" "x"),
        (some "value", mkLeaf "number" "4")])])]

/-- The same shape with the allow-listed literal 100. -/
def c6WTree : SNode :=
  mkNode "program" "const y = 100;" [
    (none, mkNode "lexical_declaration" "const y = 100;" [
      (none, mkNode "variable_declarator" "y = 100" [
        (some "name", mkLeaf "identifier" "y"),
        (some "value", mkLeaf "number" "100")])])]

def c6WNum : SNode := mkLeaf "number" "100"

def c7Code : String := "class C \x7b\n  m() \x7b\x7d\n\x7d"

def c7Method : SNode :=
  SNode.mk ⟨"method_definition", "m() \x7b\x7d", true, 1, 1, 12, 18⟩ [
    (some "name", SNode.mk ⟨"property_identifier", "m", true, 1, 1, 12, 13⟩ []),
    (some "body", SNode.mk ⟨"statement_block", "\x7b\x7d", true, 1, 1, 16, 18⟩ [])]

/-- A file whose only function-like node is a class method. -/
def c7Root : SNode :=
  SNode.mk ⟨"program", "class C ...", true, 0, 2, 0, 20⟩ [
    (none, SNode.mk ⟨"class_declaration", "class C ...", true, 0, 2, 0, 20⟩ [
      (some "name", SNode.mk ⟨"identifier", "C", true, 0, 0, 6, 7⟩ []),
      (some "body", SNode.mk ⟨"class_body", "...", true, 0, 2, 8, 20⟩ [
        (none, c7Method)])])]

def c7PyCode : String := "def f(): pass"

def c7PyFn : SNode :=
  mkNode "function_definition" "def f(): pass" [
    (some "name", mkLeaf "identifier" "f")]

def c7PyRoot : SNode := mkNode "module" "def f(): pass" [(none, c7PyFn)]

def c8Code : String := "const token = \x27abcdefgh\x27;"

/-- A variable literally named token assigned a long non-placeholder string
literal. -/
def c8CtrTree : SNode :=
  mkNode "program" c8Code [
    (none, mkNode "lexical_declaration" c8Code [
      (none, mkNode "variable_declarator" "token = \x27abcdefgh\x27" [
        (some "name", mkLeaf "identifier" "token"),
        (some "value", mkLeaf "string" "\x27abcdefgh\x27")])])]

def c8WCode : String := "const apiKey = \x27abcdefgh\x27;"

/-- A variable named apiKey assigned a long non-placeholder string literal. -/
def c8WTree : SNode :=
  mkNode "program" c8WCode [
    (none, mkNode "lexical_declaration" c8WCode [
      (none, mkNode "variable_declarator" "apiKey = \x27abcdefgh\x27" [
        (some "name", mkLeaf "identifier" "apiKey"),
        (some "value", mkLeaf "string" "\x27abcdefgh\x27")])])]

/-- An issue of a type known to the enum but outside the switch of the generator. -/
def c9SqlIssue : CodeIssue :=
  { type := .SQL_INJECTION_RISK, category := .SECURITY, severity := .critical,
    line := 1,
    message := "SQL query with string interpolation - SQL injection risk",
    suggestion := some "Use parameterized queries or prepared statements",
    codeSnippet := some "query", fix := none }

def c10Import : SNode := mkLeaf "import_statement" "import x"

def c10aCode : String := "imports only"

/-- Eleven imports and no function: the tight-coupling file issue fires with
nowhere to attach. -/
def c10aRoot : SNode :=
  SNode.mk ⟨"program", "imports", true, 0, 0, 0, 0⟩
    (List.replicate 11 ((none : Option String), c10Import))

def c10bCode : String := "function f() \x7b\x7d"

def c10bFn : SNode :=
  SNode.mk ⟨"function_declaration", "function f() \x7b\x7d", true, 0, 0, 0, 15⟩ [
    (some "name", mkLeaf "identifier" "f"),
    (some "body", mkLeaf "statement_block" "\x7b\x7d")]

/-- Eleven imports and one function: the tight-coupling file issue is appended
to that function. -/
def c10bRoot : SNode :=
  SNode.mk ⟨"program", "imports and f", true, 0, 0, 0, 0⟩
    (List.replicate 11 ((none : Option String), c10Import) ++ [(none, c10bFn)])

/-! Claim theorems. -/

/-- C1: the claim predicts cyclomatic complexity exactly 1 for a function
subtree with no decision construct, the C-like vocabulary adding only the
short-circuit logical-operator nodes. The code disagrees: the JavaScript
decision set contains the node type `binary_expression` wholesale (its
comment says it stands for the nullish operator, and the operator check that
would restrict it is dead code), so the arithmetic expression `a + b` of
`c1Tree` is counted and the calculator returns 2 although the tree contains
no node of the claimed vocabulary. -/
theorem c1_binary_expression_miscount :
    ((c1Tree.pairs []).countP (fun p => specCLikeDecisionNode p.2)) = 0 ∧
    cyclomaticCalculate "javascript" c1Tree = 2 ∧
    (cycDecisionNodes "javascript").contains "binary_expression" = true := by
  refine ⟨by decide, by decide, by decide⟩

/-- C4: the claim predicts that each break-in-flow node contributes one plus
its number of break-in-flow ancestors, so `c4Tree` (two sibling ifs, the
first containing a nested if) should score 1 + 2 + 1 = 4. The code keeps the
nesting level in one shared mutable variable read again after each child
subtree, so the second sibling receives the level left behind by the nested
if of the first sibling and contributes 3, for a total of 6. -/
theorem c4_nesting_level_leak :
    cognitiveCalculate "javascript" (some "program") c4Tree = 6 ∧
    specCogIncrements (cogBreakFlowNodes "javascript") c4Tree = 4 := by
  refine ⟨by decide, by decide⟩

/-- C5: an if node whose parent is an else clause contributes nothing itself
(the add of 1 + nesting is immediately undone) while its children are
traversed with the nesting level raised by one, for both language
vocabularies. -/
theorem c5_else_if_cancellation (fname txt : String) (nm : Bool)
    (r er si ei : Nat) (ks : List (Option String × SNode)) (p : Nat) :
    cogVisit (cogBreakFlowNodes "javascript") fname (some "else_clause") p
        (SNode.mk ⟨"if_statement", txt, nm, r, er, si, ei⟩ ks)
      = cogVisitKids (cogBreakFlowNodes "javascript") fname "if_statement" (p + 1) ks
  ∧ cogVisit (cogBreakFlowNodes "python") fname (some "else_clause") p
        (SNode.mk ⟨"if_statement", txt, nm, r, er, si, ei⟩ ks)
      = cogVisitKids (cogBreakFlowNodes "python") fname "if_statement" (p + 1) ks := by
  constructor <;>
  · rw [cogVisit]
    simp [isLogicalOperatorNode, isRecursiveCallNode, cogBreakFlowNodes, SNode.type,
      SNode.info]

/-- C2 counterexample: two invocations of parse on the same source and path
differ whenever their wall-clock stamps differ, because the result embeds the
`new Date()` value; the records are not byte-identical. -/
theorem c2_analysisDate_differs :
    jsParse false c2Root c2Code "a.js" 0 ≠ jsParse false c2Root c2Code "a.js" 1 := by
  intro h
  have h2 := congrArg FileAnalysis.analysisDate h
  simp [jsParse] at h2

/-- C2 amended: parse is a pure function of its input in every field except
`analysisDate`; the two results of any two invocations agree once the date
field is overwritten, and the date field is exactly the invocation clock. -/
theorem c2_pure_up_to_date (isTS : Bool) (root : SNode) (code filePath : String)
    (t1 t2 : Nat) :
    jsParse isTS root code filePath t1 =
      { jsParse isTS root code filePath t2 with analysisDate := t1 }
  ∧ (jsParse isTS root code filePath t1).analysisDate = t1
  ∧ pyParse root code filePath t1 =
      { pyParse root code filePath t2 with analysisDate := t1 }
  ∧ (pyParse root code filePath t1).analysisDate = t1 := by
  refine ⟨rfl, rfl, rfl, rfl⟩

/-- Folding an accumulated count equals adding the mapped sum. -/
theorem foldl_add_sum {α : Type} (g : α → Nat) (l : List α) (n : Nat) :
    l.foldl (fun s x => s + g x) n = n + (l.map g).sum := by
  induction l generalizing n with
  | nil => simp
  | cons a r ih => simp [ih, Nat.add_assoc]

/-- C3: for both parsers, `totalIssues` of the returned analysis equals the
sum of the issue-list lengths over its functions plus the sum over all
methods of its classes; the parsers recompute the total from the final
(post-append) lists, so the invariant holds for every input. -/
theorem c3_totalIssues_sum (isTS : Bool) (root : SNode) (code filePath : String)
    (now : Nat) :
    (jsParse isTS root code filePath now).totalIssues
      = ((jsParse isTS root code filePath now).functions.map
          (fun f => f.issues.length)).sum
        + ((jsParse isTS root code filePath now).classes.map
            (fun c => (c.methods.map (fun m => m.issues.length)).sum)).sum
  ∧ (pyParse root code filePath now).totalIssues
      = ((pyParse root code filePath now).functions.map
          (fun f => f.issues.length)).sum
        + ((pyParse root code filePath now).classes.map
            (fun c => (c.methods.map (fun m => m.issues.length)).sum)).sum := by
  constructor
  · show (jsParse isTS root code filePath now).totalIssues = _
    simp only [jsParse]
    simp [foldl_add_sum]
  · show (pyParse root code filePath now).totalIssues = _
    simp only [pyParse]
    simp [foldl_add_sum]

/-- A flat map is nonempty exactly when some element produces output. -/
theorem flatMap_ne_nil_iff {α β : Type} (l : List α) (f : α → List β) :
    l.flatMap f ≠ [] ↔ ∃ a ∈ l, f a ≠ [] := by
  rw [Ne, List.flatMap_eq_nil_iff]
  push_neg
  rfl

/-- An allow-listed numeric literal contributes no magic-number issue. -/
theorem magicIssueAt_acceptable (anc : List SNode) (n : SNode)
    (hty : n.type = "number") (hacc : acceptableHas (jsParseNum n.text) = true) :
    magicIssueAt anc n = [] := by
  simp [magicIssueAt, hty, hacc]

/-- C6 counterexample: the literal 4 — a power of two not above 1024 — is
reported as a magic number (the source allow-list starts its powers of two at
16), so the claimed allow-list exemption fails as stated. -/
theorem c6_four_reported :
    detectMagicNumbers [] c6Tree ≠ [] ∧ (detectMagicNumbers [] c6Tree).length = 1 := by
  refine ⟨by decide, by decide⟩

/-- C6 amended: a numeric literal whose parsed value is in the source
allow-list (0, 1, -1, 2, 10, 100, 1000, 60, 24, 7, the ten specific HTTP
codes, and the powers of two from 16 to 1024) is never reported, node-wise
and tree-wise; in particular a file whose literals are all 100 yields no
magic-number issue. -/
theorem c6_allowlist_exempt :
    (∀ (anc : List SNode) (n : SNode), n.type = "number" →
      acceptableHas (jsParseNum n.text) = true → magicIssueAt anc n = [])
  ∧ ∀ (anc0 : List SNode) (t : SNode), allNumbersAcceptable anc0 t = true →
      detectMagicNumbers anc0 t = [] := by
  refine ⟨magicIssueAt_acceptable, ?_⟩
  intro anc0 t h
  rw [detectMagicNumbers, List.flatMap_eq_nil_iff]
  intro p hp
  have hb := List.all_eq_true.mp h p hp
  by_cases hty : p.2.type = "number"
  · have hacc : acceptableHas (jsParseNum p.2.text) = true := by
      simp [hty] at hb
      exact hb
    exact magicIssueAt_acceptable p.1 p.2 hty hacc
  · simp [magicIssueAt, hty]

/-- C6 witness: the theorem applied to the allow-listed literal 100. -/
theorem c6_allowlist_exempt_witness :
    (allNumbersAcceptable [] c6WTree = true ∧ detectMagicNumbers [] c6WTree = [])
  ∧ (acceptableHas (jsParseNum c6WNum.text) = true ∧ magicIssueAt [] c6WNum = []) :=
  ⟨⟨by decide, c6_allowlist_exempt.2 [] c6WTree (by decide)⟩,
   ⟨by decide, c6_allowlist_exempt.1 [] c6WNum rfl (by decide)⟩⟩

/-- C7 counterexample: a file whose only function-like node is a class method
reports that method in the file-level functions list while the classes list
is empty, contradicting methods being reported under their class. -/
theorem c7_method_in_file_functions :
    ((jsParse false c7Root c7Code "a.js" 0).functions.map (fun f => f.name)) = ["m"]
  ∧ (jsParse false c7Root c7Code "a.js" 0).classes = [] := by
  refine ⟨by decide, by decide⟩

/-- C7 amended: the Python parser excludes class methods from the file-level
functions (every kept standalone pair has no class-definition ancestor) and
reports them under their classes, but in the JavaScript/TypeScript parser
class analysis is unimplemented: `classes` is always empty and
`method_definition` is one of the file-level function types, so methods enter
the file-level list and means. -/
theorem c7_classes_unimplemented :
    (∀ (isTS : Bool) (root : SNode) (code filePath : String) (now : Nat),
      (jsParse isTS root code filePath now).classes = [])
  ∧ jsFunctionTypes.contains "method_definition" = true
  ∧ ∀ (root : SNode),
      ((pyStandalonePairs root).all (fun p => !hasClassAncestor p.1)) = true := by
  refine ⟨fun _ _ _ _ _ => rfl, by decide, ?_⟩
  intro root
  rw [List.all_eq_true]
  intro p hp
  have := List.of_mem_filter hp
  simpa using this

/-- C9 counterexample: the SQL-injection issue type belongs to the closed
issue-type enum, yet the generator returns no fix for it instead of a
guidance record. -/
theorem c9_sql_injection_no_fix : generateFix "" c9SqlIssue = none := rfl

/-- C9 amended: the generator returns a record exactly for the fourteen
issue types of its switch; the record has `automated` true exactly for the
three safe rewrites (loose equality, console.log removal, unused-variable
removal) and false for the eleven guidance types; the remaining twenty enum
types (SQL injection risk, TODO comments, poor naming, the memory-leak and
most architecture kinds among them) yield no fix. -/
theorem c9_fix_table (code : String) (issue : CodeIssue) :
    (generateFix code issue).isSome
      = decide (issue.type ∈ fixAutomatedTypes ∨ issue.type ∈ fixGuidanceTypes)
  ∧ ((generateFix code issue).map FGFix.automated).getD false
      = decide (issue.type ∈ fixAutomatedTypes) := by
  obtain ⟨t, c, sv, ln, msg, sg, sn, fx⟩ := issue
  cases t <;> simp [generateFix, fixAutomatedTypes, fixGuidanceTypes]

/-- C10: confirmed. When the analyzed function list is empty the returned
analysis has no functions, no classes and zero total issues — the file-level
architecture issues are dropped entirely; when functions exist and file-level
issues were found, they are appended to the issue list of the first function and
the remaining functions are untouched. -/
theorem c10_file_level_attachment (isTS : Bool) (root : SNode)
    (code filePath : String) (now : Nat) :
    (jsAnalyzeFunctions (if isTS then "typescript" else "javascript") code root = [] →
      (jsParse isTS root code filePath now).functions = []
      ∧ (jsParse isTS root code filePath now).classes = []
      ∧ (jsParse isTS root code filePath now).totalIssues = 0)
  ∧ ∀ (f0 : FunctionInfo) (rest : List FunctionInfo),
      jsAnalyzeFunctions (if isTS then "typescript" else "javascript") code root
        = f0 :: rest →
      detectArchitectureIssues code [] root ≠ [] →
      (jsParse isTS root code filePath now).functions =
        { f0 with issues := f0.issues ++ detectArchitectureIssues code [] root }
          :: rest := by
  constructor
  · intro h
    refine ⟨?_, ?_, ?_⟩ <;> simp [jsParse, h]
  · intro f0 rest h hfi
    have hfi2 : (detectArchitectureIssues code [] root).isEmpty = false := by
      simpa [List.isEmpty_iff] using hfi
    simp [jsParse, h, hfi2, pushIssuesFirstFn]

/-- C10 witness: with eleven imports and no function the tight-coupling file
issue exists but the analysis carries no issues at all; with eleven imports
and one function the issue is appended to the list of that function. -/
theorem c10_file_level_attachment_witness :
    detectArchitectureIssues c10aCode [] c10aRoot ≠ []
  ∧ (jsParse false c10aRoot c10aCode "a.js" 3).functions = []
  ∧ (jsParse false c10aRoot c10aCode "a.js" 3).totalIssues = 0
  ∧ (jsParse false c10bRoot c10bCode "b.js" 3).functions =
      [{ jsAnalyzeFunction "javascript" c10bCode [c10bRoot] c10bFn with
         issues := (jsAnalyzeFunction "javascript" c10bCode [c10bRoot] c10bFn).issues
           ++ detectArchitectureIssues c10bCode [] c10bRoot }] :=
  ⟨by decide,
   ((c10_file_level_attachment false c10aRoot c10aCode "a.js" 3).1 rfl).1,
   ((c10_file_level_attachment false c10aRoot c10aCode "a.js" 3).1 rfl).2.2,
   (c10_file_level_attachment false c10bRoot c10bCode "b.js" 3).2
     (jsAnalyzeFunction "javascript" c10bCode [c10bRoot] c10bFn) [] rfl (by decide)⟩

/-- Per-node: the hardcoded-secret check emits an issue exactly when the
specification-side trigger holds. -/
theorem secretAt_ne_nil_iff (code : String) (n : SNode) :
    hardcodedSecretAt code n ≠ [] ↔ specSecretTrigger n = true := by
  unfold hardcodedSecretAt specSecretTrigger
  cases hv : n.childForField "value" with
  | none =>
    by_cases hty : (n.type == "variable_declarator" || n.type == "property_identifier") = true <;>
      simp [hty, specSecretValueCheck]
  | some v =>
    by_cases hty : (n.type == "variable_declarator" || n.type == "property_identifier") = true
    · simp only [hty, if_true, Bool.true_and, specSecretValueCheck]
      rw [flatMap_ne_nil_iff]
      constructor
      · rintro ⟨pat, hmem, hne⟩
        by_cases h1 : (jsIncludesAny
            (jsToLower (match n.childForField "name" with
              | some nm => nm
              | none => n).text) pat.1 && (v.type == "string")) = true
        · by_cases h2 : (decide (v.text.length > 6) && !isPlaceholderValue v.text) = true
          · simp only [Bool.and_eq_true] at h1 h2
            simp only [Bool.and_eq_true, List.any_eq_true]
            exact ⟨⟨⟨⟨pat, hmem, h1.1⟩, h1.2⟩, h2.1⟩, h2.2⟩
          · simp [h1, h2] at hne
        · simp [h1] at hne
      · intro hr
        simp only [Bool.and_eq_true, List.any_eq_true] at hr
        obtain ⟨⟨⟨⟨pat, hmem, hA⟩, hB⟩, hC⟩, hD⟩ := hr
        refine ⟨pat, hmem, ?_⟩
        simp [hA, hB, hC, hD]
    · simp [hty]

/-- Per-node: every emitted hardcoded-secret issue has the secret type and
critical severity. -/
theorem secretAt_fields (code : String) (n : SNode) :
    (hardcodedSecretAt code n).all (fun i =>
      i.type == IssueType.HARDCODED_SECRET && i.severity == Severity.critical) = true := by
  rw [List.all_eq_true]
  intro i hi
  unfold hardcodedSecretAt at hi
  by_cases hty : (n.type == "variable_declarator" || n.type == "property_identifier") = true
  · rw [if_pos hty] at hi
    cases hv : n.childForField "value" with
    | none => simp [hv] at hi
    | some v =>
      simp only [hv] at hi
      obtain ⟨pat, _, hpi⟩ := List.mem_flatMap.mp hi
      by_cases h1 : (jsIncludesAny
          (jsToLower (match n.childForField "name" with
            | some nm => nm
            | none => n).text) pat.1 && (v.type == "string")) = true
      · rw [if_pos h1] at hpi
        by_cases h2 : (decide (v.text.length > 6) && !isPlaceholderValue v.text) = true
        · rw [if_pos h2] at hpi
          simp at hpi
          subst hpi
          rfl
        · rw [if_neg h2] at hpi
          simp at hpi
      · rw [if_neg h1] at hpi
        simp at hpi
  · rw [if_neg hty] at hi
    simp at hi

/-- C8 counterexample: a variable literally named `token` (one of the
claimed secret-name patterns) assigned the ten-character non-placeholder
literal of `c8CtrTree` produces no hardcoded-secret issue, because no source
pattern matches the bare name `token`. -/
theorem c8_bare_token_not_reported :
    detectHardcodedSecrets c8Code [] c8CtrTree = [] := by decide

/-- C8 amended: a critical HARDCODED_SECRET issue is reported exactly when
some node is a variable or property whose name matches one of the eleven
source patterns (api/auth/bearer token, api/secret/private/access/stripe
key, password, client secret, aws secret — bare `secret` or `token` names
match none of them) and whose `value` field is a string literal of text
length greater than six not matching a placeholder pattern; and every
reported issue of this detector has the secret type and critical severity. -/
theorem c8_secret_report_iff (code : String) (anc0 : List SNode) (t : SNode) :
    (detectHardcodedSecrets code anc0 t ≠ [] ↔
      ((t.pairs anc0).any (fun p => specSecretTrigger p.2)) = true)
  ∧ (detectHardcodedSecrets code anc0 t).all (fun i =>
      i.type == IssueType.HARDCODED_SECRET && i.severity == Severity.critical) = true := by
  constructor
  · rw [detectHardcodedSecrets, flatMap_ne_nil_iff, List.any_eq_true]
    constructor
    · rintro ⟨p, hp, hne⟩
      exact ⟨p, hp, (secretAt_ne_nil_iff code p.2).mp hne⟩
    · rintro ⟨p, hp, htr⟩
      exact ⟨p, hp, (secretAt_ne_nil_iff code p.2).mpr htr⟩
  · rw [detectHardcodedSecrets, List.all_eq_true]
    intro i hi
    obtain ⟨p, _, hip⟩ := List.mem_flatMap.mp hi
    exact List.all_eq_true.mp (secretAt_fields code p.2) i hip

end CodeAnalyzer
